import Mathlib

/-!
# ChainQueen `src/mpmop.cc`: the `Mpm` operator binding

A shallow embedding of the TensorFlow binding of the MPM step:

* the shape function registered with `REGISTER_OP("Mpm")` (lines 32-108),
* the constructor of `MPMOpGPU` (lines 144-165),
* `MPMOpGPU::Compute` (lines 167-264), up to and including the one call of
  `MPMKernelLauncher` (declared at lines 114-133, defined elsewhere).

Conventions of the embedding.

* C `int` is a 32 bit two's complement integer: every value stored in an
  `int` goes through `wrap32`.  The one exception are the casts
  `(int)gravity_.size()` and `(int)res_.size()`, which are exact: an attribute
  list is part of a `NodeDef` protocol buffer of less than 2 GB and has fewer
  than `2^31` entries.
* A `shape_inference::Dimension` is its `int64 value_`; the unknown dimension
  is `kUnknownDim = -1`.
* `float` attributes are IEEE-754 binary32 bit patterns; the only operation
  the binding performs on them is the comparison `> 0`.
* Library calls (`WithRank`, `Dim`, `Merge`, `MakeDim`, `MakeShape`,
  `set_output`, `GetAttr`, `dim_size`, `set_dim`, `allocate_output`) follow
  the behaviour of the TensorFlow 1.x library, whose compiled part is built
  without its internal debug assertions.
* `GetAttr` of an attribute registered by `REGISTER_OP` finds the attribute
  with the registered type.  A `float` or `list(float)` is read as it is.  The
  `list(int)` attribute `resolution` holds 64 bit values and is read into a
  `std::vector<int>`: the read returns an `InvalidArgument` error at the first
  entry that is not the value of an `int`.
* An access outside an array or vector is the outcome `undefined`; a failed
  `CHECK` (or enabled `DCHECK`) is the outcome `fatal`.
* `DCHECK` and `DCHECK_EQ` are checks only when the file is compiled without
  `NDEBUG`.  That choice is the parameter `dchecks` of `Compute` and of the
  shape function; it governs the `DCHECK_EQ`s written in `Compute` and the
  `DCHECK` of the inline constructor `DimensionOrConstant(int64)`, which the
  shape function calls at lines 102 and 104 and which is compiled with the
  file from the header `shape_inference.h`.

The definitions come first, the theorems after them.  The theorems whose
names start with `C1` to `C10` settle the ten claims about the binding.
-/

namespace ChainQueen

/-! ## Machine integers and floats -/

/-- The value of a C `int` holding the mathematical integer `x`
(32 bit two's complement). -/
def wrap32 (x : Int) : Int := (x + 2147483648) % 4294967296 - 2147483648

/-- An IEEE-754 binary32 value, given by its bit pattern (a number below
`2^32`: sign bit, 8 exponent bits, 23 fraction bits). -/
structure Float32 where
  bits : Nat
  deriving DecidableEq, Repr

/-- The C comparison `x > 0` on a `float`: the sign bit is clear, the value
is not a zero and not a NaN (`0x7F800000` is `+inf`, which is `> 0`). -/
def Float32.gtZero (x : Float32) : Bool :=
  decide (0 < x.bits) && decide (x.bits ≤ 0x7F800000)

/-! ## Statuses and outcomes -/

/-- The six scalar attributes checked by the constructor. -/
inductive ScalarAttr
  | dt | dx | E | nu | m_p | V_p
  deriving DecidableEq, Repr

/-- The text of an error status, by the place that builds it. -/
inductive Message
  /-- `WithRank`: "Shape must be rank `expected` but is rank `actual`". -/
  | rank (expected actual : Nat)
  /-- `Merge`: "Dimensions must be equal, but are `d0` and `d1`". -/
  | dimensions (d0 d1 : Int)
  /-- Line 86: "Gravity length must be equal to `dim_`, but is `size`". -/
  | gravityLength (dim_ : Int) (size : Nat)
  /-- Line 89: "Resolution length must be equal to `dim_`, but is `size`". -/
  | resolutionLength (dim_ : Int) (size : Nat)
  /-- Lines 147-164: "Need `attr` > 0, got `value`". -/
  | needPositive (attr : ScalarAttr) (value : Float32)
  /-- `GetAttr` into a `std::vector<int>`: "Attr resolution has value `value`
  out of range for an int32". -/
  | attrRange (value : Int)
  /-- A failed `allocate_output` of the given output index. -/
  | allocation (index : Nat)
  deriving DecidableEq, Repr

/-- A `tensorflow::Status`. -/
inductive Status
  | OK
  | InvalidArgument (msg : Message)
  | ResourceExhausted (msg : Message)
  deriving DecidableEq, Repr

/-- How a call ends: it returns with a status, or a `CHECK` aborts the
process, or it performs an out-of-bounds access. -/
inductive Outcome
  | returned (s : Status)
  | fatal
  | undefined
  deriving DecidableEq, Repr

/-! ## Shape inference library -/

/-- The `value_` of a `shape_inference::Dimension`. -/
abbrev Dimension := Int

/-- The constant `InferenceContext::kUnknownDim`. -/
def kUnknownDim : Int := -1

/-- A shape known to shape inference: of unknown rank, or a list of
dimensions each of which may be unknown. -/
inductive ShapeHandle
  | unknownRank
  | dims (ds : List Dimension)
  deriving DecidableEq, Repr

/-- The attributes of an `Mpm` node as the node definition holds them:
`float` values, a `list(float)` and a `list(int)`, whose entries are 64 bit
integers (`GetAttrResolution` below is the read into a `std::vector<int>`,
which rejects every entry that is not the value of an `int`). -/
structure Attrs where
  dt : Float32
  dx : Float32
  E : Float32
  nu : Float32
  m_p : Float32
  V_p : Float32
  gravity : List Float32
  resolution : List Int
  deriving DecidableEq, Repr

/-- The part of a `shape_inference::InferenceContext` the shape function
uses: the input shapes, the output slots (`none` until `set_output`), and the
attributes of the node. -/
structure InferenceContext where
  inputs : List ShapeHandle
  outputs : List (Option ShapeHandle)
  attrs : Attrs
  deriving DecidableEq, Repr

/-- The context handed to the shape function of a node with four inputs and
six outputs: no output is set. -/
def InferenceContext.init (x v F C : ShapeHandle) (attrs : Attrs) :
    InferenceContext :=
  ⟨[x, v, F, C], List.replicate 6 none, attrs⟩

/-- The call `c->input(i)`. -/
def InferenceContext.input (c : InferenceContext) (i : Nat) : ShapeHandle :=
  c.inputs.getD i ShapeHandle.unknownRank

/-- The call `c->set_output(i, s)`. -/
def InferenceContext.set_output (c : InferenceContext) (i : Nat)
    (s : ShapeHandle) : InferenceContext :=
  ⟨c.inputs, c.outputs.set i (some s), c.attrs⟩

/-- The call `c->WithRank(s, rank, &out)`: a shape of unknown rank becomes
`rank` unknown dimensions, a shape of that rank is returned as is, any other
rank is an error. -/
def WithRank (s : ShapeHandle) (rank : Nat) : Except Status ShapeHandle :=
  match s with
  | ShapeHandle.unknownRank =>
    Except.ok (ShapeHandle.dims (List.replicate rank kUnknownDim))
  | ShapeHandle.dims ds =>
    if ds.length = rank then Except.ok s
    else Except.error (Status.InvalidArgument (Message.rank rank ds.length))

/-- The call `c->Dim(s, idx)`. -/
def Dim (s : ShapeHandle) (idx : Nat) : Int :=
  match s with
  | ShapeHandle.unknownRank => kUnknownDim
  | ShapeHandle.dims ds => ds.getD idx kUnknownDim

/-- The call `c->Merge(d0, d1, &out)` on two dimensions: the merged dimension
is written to `out`, the arguments are left as they are.  (Two handles of the
same `Dimension` have the same value, which the cases below return as
`d0`.) -/
def Merge (d0 d1 : Int) : Except Status Int :=
  if d1 = kUnknownDim then Except.ok d0
  else if d0 = kUnknownDim then Except.ok d1
  else if d0 = d1 then Except.ok d0
  else Except.error (Status.InvalidArgument (Message.dimensions d0 d1))

/-- The call `GetAttr("resolution", &res_)` with `res_` a `std::vector<int>`
(lines 81 and 152), on the entries of the attribute: each 64 bit entry `v` is
cast to `int` and appended to `res_`, unless the cast changes its value
(`static_cast<int64>(static_cast<int32>(v)) != v`), in which case the call
returns an `InvalidArgument` error that carries `v`. -/
def GetAttrResolution : List Int → Except Status (List Int)
  | [] => Except.ok []
  | v :: rest =>
    if wrap32 v ≠ v then Except.error (Status.InvalidArgument (Message.attrRange v))
    else
      match GetAttrResolution rest with
      | Except.error e => Except.error e
      | Except.ok res_ => Except.ok (wrap32 v :: res_)

/-- The inline constructor `DimensionOrConstant(int64 val)`, which holds
`DCHECK(val >= 0 || val == InferenceContext::kUnknownDim)`; `none` when the
check is compiled in and fails. -/
def DimensionOrConstant (dchecks : Bool) (val : Int) : Option Int :=
  if dchecks then
    if 0 ≤ val ∨ val = kUnknownDim then some val else none
  else some val

/-- The read `*((int *)dim.Handle())` of line 78: the handle is the address
of the `Dimension`, whose first member is `int64 value_`; on a little-endian
machine the read yields its low 32 bits as an `int`, which is `-1` for the
unknown dimension. -/
def readInt (d : Int) : Int := wrap32 d

/-- The loop of lines 92-97, `n` iterations from index `i` on: `res_[i]` is
read, stored in the local `int res[3]`, and multiplied into `num_cells`.
`none` when `i` is outside `res_` or outside `res`. -/
def shapeLoop (res_ : List Int) : Nat → Nat → Int → Option Int
  | 0, _, num_cells => some num_cells
  | n + 1, i, num_cells =>
    match res_[i]? with
    | none => none
    | some r =>
      if i < 3 then shapeLoop res_ n (i + 1) (wrap32 (num_cells * r))
      else none

/-- The shape function of `REGISTER_OP("Mpm")`, lines 32-108.  It returns the
outcome together with the context as the function leaves it.  `dchecks` tells
whether the file is compiled with debug checks (`NDEBUG` not defined). -/
def MpmShapeFn (dchecks : Bool) (c : InferenceContext) : Outcome × InferenceContext :=
  match WithRank (c.input 0) 3 with
  | Except.error e => (Outcome.returned e, c)
  | Except.ok x_shape =>
  match WithRank (c.input 1) 3 with
  | Except.error e => (Outcome.returned e, c)
  | Except.ok v_shape =>
  match WithRank (c.input 2) 4 with
  | Except.error e => (Outcome.returned e, c)
  | Except.ok F_shape =>
  match WithRank (c.input 3) 4 with
  | Except.error e => (Outcome.returned e, c)
  | Except.ok C_shape =>
  let batch_size := Dim x_shape 0
  let batch_sizev := Dim v_shape 0
  let batch_sizeF := Dim F_shape 0
  let batch_sizeC := Dim C_shape 0
  match Merge batch_size batch_sizev with
  | Except.error e => (Outcome.returned e, c)
  | Except.ok _ =>
  match Merge batch_size batch_sizeF with
  | Except.error e => (Outcome.returned e, c)
  | Except.ok _ =>
  match Merge batch_size batch_sizeC with
  | Except.error e => (Outcome.returned e, c)
  | Except.ok _ =>
  let dim := Dim x_shape 1
  let dimv := Dim v_shape 1
  let dimF1 := Dim F_shape 1
  let dimF2 := Dim F_shape 2
  let dimC1 := Dim C_shape 1
  let dimC2 := Dim C_shape 2
  match Merge dim dimv with
  | Except.error e => (Outcome.returned e, c)
  | Except.ok _ =>
  match Merge dim dimF1 with
  | Except.error e => (Outcome.returned e, c)
  | Except.ok _ =>
  match Merge dim dimF2 with
  | Except.error e => (Outcome.returned e, c)
  | Except.ok _ =>
  match Merge dim dimC1 with
  | Except.error e => (Outcome.returned e, c)
  | Except.ok _ =>
  match Merge dim dimC2 with
  | Except.error e => (Outcome.returned e, c)
  | Except.ok _ =>
  let particle := Dim x_shape 2
  let particlev := Dim v_shape 2
  let particleF := Dim F_shape 3
  let particleC := Dim C_shape 3
  match Merge particle particlev with
  | Except.error e => (Outcome.returned e, c)
  | Except.ok _ =>
  match Merge particle particleF with
  | Except.error e => (Outcome.returned e, c)
  | Except.ok _ =>
  match Merge particle particleC with
  | Except.error e => (Outcome.returned e, c)
  | Except.ok _ =>
  let c := c.set_output 0 x_shape
  let c := c.set_output 1 v_shape
  let c := c.set_output 2 F_shape
  let c := c.set_output 3 C_shape
  let c := c.set_output 4 C_shape
  let dim_ := readInt dim
  match GetAttrResolution c.attrs.resolution with
  | Except.error e => (Outcome.returned e, c)
  | Except.ok res_ =>
  let gravity_ := c.attrs.gravity
  if (gravity_.length : Int) ≠ dim_ then
    (Outcome.returned
      (Status.InvalidArgument (Message.gravityLength dim_ gravity_.length)), c)
  else if (res_.length : Int) ≠ dim_ then
    (Outcome.returned
      (Status.InvalidArgument (Message.resolutionLength dim_ res_.length)), c)
  else
  match shapeLoop res_ dim_.toNat 0 1 with
  | none => (Outcome.undefined, c)
  | some num_cells =>
  match DimensionOrConstant dchecks num_cells with
  | none => (Outcome.fatal, c)
  | some cells =>
  match DimensionOrConstant dchecks (wrap32 (dim_ + 1)) with
  | none => (Outcome.fatal, c)
  | some channels =>
  let new_shape := [batch_size, cells, channels]
  let c := c.set_output 5 (ShapeHandle.dims new_shape)
  (Outcome.returned Status.OK, c)

/-! ## The kernel `MPMOpGPU` -/

/-- The members of `MPMOpGPU` (lines 137-141); `res_` is a
`std::vector<int>`, filled by the constructor. -/
structure MPMOpGPU where
  dt_ : Float32
  dx_ : Float32
  m_p_ : Float32
  V_p_ : Float32
  E_ : Float32
  nu_ : Float32
  gravity_ : List Float32
  res_ : List Int
  deriving DecidableEq, Repr

/-- The constructor `MPMOpGPU::MPMOpGPU` (lines 144-165) on a construction
context with the given attributes.  `OP_REQUIRES` records the status and
returns at the first condition that fails; `Except.error` is that status,
`Except.ok` the constructed kernel. -/
def MPMOpGPU.construct (context : Attrs) : Except Status MPMOpGPU :=
  let dt_ := context.dt
  if !dt_.gtZero then
    Except.error (Status.InvalidArgument (Message.needPositive ScalarAttr.dt dt_))
  else
  let dx_ := context.dx
  if !dx_.gtZero then
    Except.error (Status.InvalidArgument (Message.needPositive ScalarAttr.dx dx_))
  else
  let gravity_ := context.gravity
  match GetAttrResolution context.resolution with
  | Except.error e => Except.error e
  | Except.ok res_ =>
  let E_ := context.E
  let nu_ := context.nu
  let m_p_ := context.m_p
  let V_p_ := context.V_p
  if !E_.gtZero then
    Except.error (Status.InvalidArgument (Message.needPositive ScalarAttr.E E_))
  else if !nu_.gtZero then
    Except.error (Status.InvalidArgument (Message.needPositive ScalarAttr.nu nu_))
  else if !m_p_.gtZero then
    Except.error (Status.InvalidArgument (Message.needPositive ScalarAttr.m_p m_p_))
  else if !V_p_.gtZero then
    Except.error (Status.InvalidArgument (Message.needPositive ScalarAttr.V_p V_p_))
  else
    Except.ok ⟨dt_, dx_, m_p_, V_p_, E_, nu_, gravity_, res_⟩

/-! ## Runtime tensors and the kernel context -/

/-- A runtime `TensorShape`: the list of its dimension sizes. -/
abbrev TensorShape := List Int

/-- The call `s.dim_size(d)`; `none` when `d` is not an axis of `s`. -/
def dim_size (s : TensorShape) (d : Nat) : Option Int := s[d]?

/-- The element count of a shape as `TensorShape` recomputes it after a
change, starting from the count `n`: each size is multiplied in by
`MultiplyWithoutOverflow`, whose result is negative when the product does not
fit an `int64`, under `CHECK_LE(0, n)`; `none` when that check fails. -/
def recompute_num_elements : List Int → Int → Option Int
  | [], n => some n
  | size :: rest, n =>
    if 0 ≤ n * size ∧ n * size < 9223372036854775808 then
      recompute_num_elements rest (n * size)
    else none

/-- The call `s.set_dim(d, size)`; `none` when one of its `CHECK`s fails:
`d` is not an axis of `s`, or `size` is negative, or the element count of the
changed shape does not fit an `int64`. -/
def set_dim (s : TensorShape) (d : Nat) (size : Int) : Option TensorShape :=
  if d < s.length ∧ 0 ≤ size then
    match recompute_num_elements (s.set d size) 1 with
    | none => none
    | some _ => some (s.set d size)
  else none

/-- A runtime tensor: its shape and the address of its flat buffer. -/
structure Tensor where
  shape : TensorShape
  data : Nat
  deriving DecidableEq, Repr

/-- The part of an `OpKernelContext` that `Compute` uses: the input tensors
and the allocator behind `allocate_output`, which returns the address of the
new buffer or an error status. -/
structure OpKernelContext where
  input : Nat → Tensor
  allocate_output : Nat → TensorShape → Except Status Nat

/-- One call of `MPMKernelLauncher`: the arguments, named as the parameters
of the declaration at lines 114-133 and in that order. -/
structure LauncherCall where
  dim : Int
  res : List Int
  num_particles : Int
  dx : Float32
  dt : Float32
  E : Float32
  nu : Float32
  m_p : Float32
  V_p : Float32
  gravity : List Float32
  inx : Nat
  inv : Nat
  inF : Nat
  inC : Nat
  outx : Nat
  outv : Nat
  outF : Nat
  outC : Nat
  outP : Nat
  outgrid : Nat
  deriving DecidableEq, Repr

/-- The declaration of `MPMKernelLauncher` (lines 114-133): a call binds the
arguments to the parameters by position. -/
def MPMKernelLauncher (dim : Int) (res : List Int) (num_particles : Int)
    (dx dt E nu m_p V_p : Float32) (gravity : List Float32)
    (inx inv inF inC outx outv outF outC outP outgrid : Nat) : LauncherCall :=
  ⟨dim, res, num_particles, dx, dt, E, nu, m_p, V_p, gravity,
    inx, inv, inF, inC, outx, outv, outF, outC, outP, outgrid⟩

/-- What `Compute` has done when it ends: the calls of `allocate_output`
(output index and shape) and the calls of `MPMKernelLauncher`, in order. -/
structure Trace where
  allocated : List (Nat × TensorShape)
  launches : List LauncherCall
  deriving DecidableEq, Repr

/-- The macro `DCHECK_EQ(a, b)`: without debug checks the arguments are not
evaluated; with them a difference aborts.  `none` when execution goes on. -/
def DCHECK_EQ (dchecks : Bool) (a : Int) (b : Option Int) : Option Outcome :=
  if dchecks then
    match b with
    | none => some Outcome.undefined
    | some b => if a = b then none else some Outcome.fatal
  else none

/-- The first check of a sequence that does not let execution go on. -/
def firstFailure : List (Option Outcome) → Option Outcome
  | [] => none
  | some o :: _ => some o
  | none :: rest => firstFailure rest

/-- The loop of lines 204-208, `n` iterations from index `i` on: `res_[i]`
and `gravity_[i]` are read into the local arrays and `res[i]` is multiplied
into `num_cells`.  `none` when `i` is outside `res_` or `gravity_`. -/
def computeLoop (res_ : List Int) (gravity_ : List Float32) :
    Nat → Nat → Int → List Int → List Float32 →
    Option (List Int × Int × List Float32)
  | 0, _, num_cells, res, gravity => some (res, num_cells, gravity)
  | n + 1, i, num_cells, res, gravity =>
    match res_[i]? with
    | none => none
    | some r =>
      match gravity_[i]? with
      | none => none
      | some g =>
        computeLoop res_ gravity_ n (i + 1) (wrap32 (num_cells * r))
          (res ++ [r]) (gravity ++ [g])

/-- The method `MPMOpGPU::Compute` (lines 167-264).  `dchecks` tells whether
the file is compiled with debug checks (`NDEBUG` not defined). -/
def MPMOpGPU.Compute (dchecks : Bool) (k : MPMOpGPU)
    (context : OpKernelContext) : Outcome × Trace :=
  let inx := context.input 0
  let inv := context.input 1
  let inF := context.input 2
  let inC := context.input 3
  let x_shape := inx.shape
  let v_shape := inv.shape
  let F_shape := inF.shape
  let C_shape := inC.shape
  let P_shape := inC.shape
  let grid_shape := inx.shape
  match firstFailure
    [DCHECK_EQ dchecks x_shape.length (some 3),
     DCHECK_EQ dchecks v_shape.length (some 3),
     DCHECK_EQ dchecks F_shape.length (some 4),
     DCHECK_EQ dchecks C_shape.length (some 4)] with
  | some o => (o, ⟨[], []⟩)
  | none =>
  match dim_size x_shape 0 with
  | none => (Outcome.undefined, ⟨[], []⟩)
  | some b =>
  let batch_size := wrap32 b
  match dim_size x_shape 1 with
  | none => (Outcome.undefined, ⟨[], []⟩)
  | some d =>
  let dim := wrap32 d
  if dim < 0 then (Outcome.undefined, ⟨[], []⟩)
  else
  match computeLoop k.res_ k.gravity_ dim.toNat 0 1 [] [] with
  | none => (Outcome.undefined, ⟨[], []⟩)
  | some (res, num_cells, gravity) =>
  let grid_shape2 := wrap32 (dim + 1)
  match dim_size x_shape 2 with
  | none => (Outcome.undefined, ⟨[], []⟩)
  | some p =>
  let particles := wrap32 p
  match firstFailure
    [DCHECK_EQ dchecks batch_size (dim_size v_shape 0),
     DCHECK_EQ dchecks batch_size (dim_size F_shape 0),
     DCHECK_EQ dchecks batch_size (dim_size C_shape 0),
     DCHECK_EQ dchecks dim (dim_size v_shape 1),
     DCHECK_EQ dchecks dim (dim_size F_shape 1),
     DCHECK_EQ dchecks dim (dim_size F_shape 2),
     DCHECK_EQ dchecks dim (dim_size C_shape 1),
     DCHECK_EQ dchecks dim (dim_size C_shape 2),
     DCHECK_EQ dchecks particles (dim_size v_shape 2),
     DCHECK_EQ dchecks particles (dim_size F_shape 3),
     DCHECK_EQ dchecks particles (dim_size C_shape 3)] with
  | some o => (o, ⟨[], []⟩)
  | none =>
  let a0 := [(0, x_shape)]
  match context.allocate_output 0 x_shape with
  | Except.error e => (Outcome.returned e, ⟨a0, []⟩)
  | Except.ok outx =>
  let a1 := a0 ++ [(1, v_shape)]
  match context.allocate_output 1 v_shape with
  | Except.error e => (Outcome.returned e, ⟨a1, []⟩)
  | Except.ok outv =>
  let a2 := a1 ++ [(2, F_shape)]
  match context.allocate_output 2 F_shape with
  | Except.error e => (Outcome.returned e, ⟨a2, []⟩)
  | Except.ok outF =>
  let a3 := a2 ++ [(3, C_shape)]
  match context.allocate_output 3 C_shape with
  | Except.error e => (Outcome.returned e, ⟨a3, []⟩)
  | Except.ok outC =>
  let a4 := a3 ++ [(4, P_shape)]
  match context.allocate_output 4 P_shape with
  | Except.error e => (Outcome.returned e, ⟨a4, []⟩)
  | Except.ok outP =>
  match set_dim grid_shape 1 num_cells with
  | none => (Outcome.fatal, ⟨a4, []⟩)
  | some grid_shape =>
  match set_dim grid_shape 2 grid_shape2 with
  | none => (Outcome.fatal, ⟨a4, []⟩)
  | some grid_shape =>
  let a5 := a4 ++ [(5, grid_shape)]
  match context.allocate_output 5 grid_shape with
  | Except.error e => (Outcome.returned e, ⟨a5, []⟩)
  | Except.ok outgrid =>
  let f_inx := inx.data
  let f_inv := inv.data
  let f_inF := inF.data
  let f_inC := inC.data
  let f_outx := outx
  let f_outv := outv
  let f_outF := outF
  let f_outC := outC
  let f_outP := outP
  let f_outgrid := outgrid
  (Outcome.returned Status.OK,
    ⟨a5, [MPMKernelLauncher dim res particles k.dx_ k.dt_ k.E_ k.nu_ k.m_p_
      k.V_p_ gravity f_inx f_inv f_inF f_inC f_outx f_outv f_outF f_outC
      f_outP f_outgrid]⟩)

/-! ## Auxiliary definitions used by the statements and proofs -/

/-- The value of `num_cells` after multiplying the entries of `l` into it. -/
def mulCells (num_cells : Int) (l : List Int) : Int :=
  l.foldl (fun acc r => wrap32 (acc * r)) num_cells

/-- The pairs of dimensions merged at lines 49-71, in order. -/
def mergePairs (x v F C : ShapeHandle) : List (Int × Int) :=
  [(Dim x 0, Dim v 0), (Dim x 0, Dim F 0), (Dim x 0, Dim C 0),
   (Dim x 1, Dim v 1), (Dim x 1, Dim F 1), (Dim x 1, Dim F 2),
   (Dim x 1, Dim C 1), (Dim x 1, Dim C 2),
   (Dim x 2, Dim v 2), (Dim x 2, Dim F 3), (Dim x 2, Dim C 3)]

/-- All `Merge` calls of lines 49-71 return OK. -/
def mergesPass (x v F C : ShapeHandle) : Bool :=
  (mergePairs x v F C).all (fun p => (Merge p.1 p.2).isOk)

/-- A sequence of `TF_RETURN_IF_ERROR(c->Merge(d0, d1, &temp))` followed by
the rest `k` of the function. -/
def guardMerges : List (Int × Int) → InferenceContext →
    Outcome × InferenceContext → Outcome × InferenceContext
  | [], _, k => k
  | p :: ps, c, k =>
    match Merge p.1 p.2 with
    | Except.error e => (Outcome.returned e, c)
    | Except.ok _ => guardMerges ps c k

/-- Lines 73-107 of the shape function, as they stand in `MpmShapeFn`: what
the function does once the rank checks and the merges have passed. -/
def afterChecks (dchecks : Bool) (c : InferenceContext)
    (x_shape v_shape F_shape C_shape : ShapeHandle) : Outcome × InferenceContext :=
  let batch_size := Dim x_shape 0
  let dim := Dim x_shape 1
  let c := c.set_output 0 x_shape
  let c := c.set_output 1 v_shape
  let c := c.set_output 2 F_shape
  let c := c.set_output 3 C_shape
  let c := c.set_output 4 C_shape
  let dim_ := readInt dim
  match GetAttrResolution c.attrs.resolution with
  | Except.error e => (Outcome.returned e, c)
  | Except.ok res_ =>
  let gravity_ := c.attrs.gravity
  if (gravity_.length : Int) ≠ dim_ then
    (Outcome.returned
      (Status.InvalidArgument (Message.gravityLength dim_ gravity_.length)), c)
  else if (res_.length : Int) ≠ dim_ then
    (Outcome.returned
      (Status.InvalidArgument (Message.resolutionLength dim_ res_.length)), c)
  else
  match shapeLoop res_ dim_.toNat 0 1 with
  | none => (Outcome.undefined, c)
  | some num_cells =>
  match DimensionOrConstant dchecks num_cells with
  | none => (Outcome.fatal, c)
  | some cells =>
  match DimensionOrConstant dchecks (wrap32 (dim_ + 1)) with
  | none => (Outcome.fatal, c)
  | some channels =>
  let new_shape := [batch_size, cells, channels]
  let c := c.set_output 5 (ShapeHandle.dims new_shape)
  (Outcome.returned Status.OK, c)

/-- Two dimensions that shape inference does not know to differ. -/
def agree (a b : Int) : Prop := a = kUnknownDim ∨ b = kUnknownDim ∨ a = b

instance (a b : Int) : Decidable (agree a b) := by unfold agree; infer_instance

/-- The batch axes of the four inputs. -/
def batchAxes (x v F C : ShapeHandle) : List Int :=
  [Dim x 0, Dim v 0, Dim F 0, Dim C 0]

/-- The spatial-dimension axes of the four inputs. -/
def spatialAxes (x v F C : ShapeHandle) : List Int :=
  [Dim x 1, Dim v 1, Dim F 1, Dim F 2, Dim C 1, Dim C 2]

/-- The particle-count axes of the four inputs. -/
def particleAxes (x v F C : ShapeHandle) : List Int :=
  [Dim x 2, Dim v 2, Dim F 3, Dim C 3]

/-- The six checked attributes with their values, in the order of the claim. -/
def checkedAttrs (a : Attrs) : List (ScalarAttr × Float32) :=
  [(ScalarAttr.dt, a.dt), (ScalarAttr.dx, a.dx), (ScalarAttr.E, a.E),
   (ScalarAttr.nu, a.nu), (ScalarAttr.m_p, a.m_p), (ScalarAttr.V_p, a.V_p)]

/-- The first attribute, in that order, that is not `> 0`. -/
def firstNonPositive (a : Attrs) : Option (ScalarAttr × Float32) :=
  (checkedAttrs a).find? (fun p => !p.2.gtZero)

/-- The attributes `a` with another `resolution` list. -/
def Attrs.withResolution (a : Attrs) (res : List Int) : Attrs :=
  ⟨a.dt, a.dx, a.E, a.nu, a.m_p, a.V_p, a.gravity, res⟩

/-- The rule of the interface on the four runtime shapes: `(B, D, N)`,
`(B, D, N)`, `(B, D, D, N)`, `(B, D, D, N)` for one `B`, `D` and `N`. -/
def shapesCompatible (x v F C : TensorShape) : Bool :=
  match x with
  | [B, D, N] => decide (v = [B, D, N] ∧ F = [B, D, D, N] ∧ C = [B, D, D, N])
  | _ => false

/-- A kernel context whose inputs have the given shapes and the buffers
`100` to `103`, and whose allocator returns the buffer `200 + i` for output
`i`. -/
def exampleContext (x v F C : TensorShape) : OpKernelContext :=
  ⟨fun i => match i with
    | 0 => ⟨x, 100⟩
    | 1 => ⟨v, 101⟩
    | 2 => ⟨F, 102⟩
    | _ => ⟨C, 103⟩,
   fun i _ => Except.ok (200 + i)⟩

/-- Lines 233-263 of `Compute`, as they stand in `MPMOpGPU.Compute`: the
allocation of the outputs and the call of the launcher. -/
def afterDchecks (k : MPMOpGPU) (context : OpKernelContext) (dim : Int) (res : List Int)
    (num_cells : Int) (gravity : List Float32) (particles : Int) : Outcome × Trace :=
  let inx := context.input 0
  let inv := context.input 1
  let inF := context.input 2
  let inC := context.input 3
  let x_shape := inx.shape
  let v_shape := inv.shape
  let F_shape := inF.shape
  let C_shape := inC.shape
  let P_shape := inC.shape
  let grid_shape := inx.shape
  let grid_shape2 := wrap32 (dim + 1)
  let a0 := [(0, x_shape)]
  match context.allocate_output 0 x_shape with
  | Except.error e => (Outcome.returned e, ⟨a0, []⟩)
  | Except.ok outx =>
  let a1 := a0 ++ [(1, v_shape)]
  match context.allocate_output 1 v_shape with
  | Except.error e => (Outcome.returned e, ⟨a1, []⟩)
  | Except.ok outv =>
  let a2 := a1 ++ [(2, F_shape)]
  match context.allocate_output 2 F_shape with
  | Except.error e => (Outcome.returned e, ⟨a2, []⟩)
  | Except.ok outF =>
  let a3 := a2 ++ [(3, C_shape)]
  match context.allocate_output 3 C_shape with
  | Except.error e => (Outcome.returned e, ⟨a3, []⟩)
  | Except.ok outC =>
  let a4 := a3 ++ [(4, P_shape)]
  match context.allocate_output 4 P_shape with
  | Except.error e => (Outcome.returned e, ⟨a4, []⟩)
  | Except.ok outP =>
  match set_dim grid_shape 1 num_cells with
  | none => (Outcome.fatal, ⟨a4, []⟩)
  | some grid_shape =>
  match set_dim grid_shape 2 grid_shape2 with
  | none => (Outcome.fatal, ⟨a4, []⟩)
  | some grid_shape =>
  let a5 := a4 ++ [(5, grid_shape)]
  match context.allocate_output 5 grid_shape with
  | Except.error e => (Outcome.returned e, ⟨a5, []⟩)
  | Except.ok outgrid =>
  (Outcome.returned Status.OK,
    ⟨a5, [MPMKernelLauncher dim res particles k.dx_ k.dt_ k.E_ k.nu_ k.m_p_
      k.V_p_ gravity inx.data inv.data inF.data inC.data outx outv outF outC
      outP outgrid]⟩)

/-! ## Theorems -/

open ShapeHandle

theorem wrap32_of_range (x : Int) (h1 : -2147483648 ≤ x) (h2 : x < 2147483648) :
    wrap32 x = x := by
  unfold wrap32; omega

theorem wrap32_idem (x : Int) : wrap32 (wrap32 x) = wrap32 x := by
  unfold wrap32; omega

theorem wrap32_congr (y z : Int) (h : y % 4294967296 = z % 4294967296) :
    wrap32 y = wrap32 z := by
  unfold wrap32; omega

theorem wrap32_emod (x : Int) : wrap32 x % 4294967296 = x % 4294967296 := by
  unfold wrap32; omega

theorem wrap32_mul_left (a b : Int) : wrap32 (wrap32 a * b) = wrap32 (a * b) := by
  apply wrap32_congr
  rw [Int.mul_emod, wrap32_emod, ← Int.mul_emod]

theorem mulCells_eq (l : List Int) : ∀ nc : Int, wrap32 nc = nc →
    mulCells nc l = wrap32 (nc * l.prod) := by
  induction l with
  | nil => intro nc h; simp [mulCells, h]
  | cons r l ih =>
    intro nc _
    have := ih (wrap32 (nc * r)) (wrap32_idem _)
    simp only [mulCells, List.foldl_cons, List.prod_cons] at this ⊢
    rw [this, wrap32_mul_left, mul_assoc]

theorem shapeLoop_isSome (res_ : List Int) : ∀ (n i : Nat) (nc : Int),
    (shapeLoop res_ n i nc).isSome = true ↔ (n = 0 ∨ (i + n ≤ res_.length ∧ i + n ≤ 3)) := by
  intro n
  induction n with
  | zero => intro i nc; simp [shapeLoop]
  | succ n ih =>
    intro i nc
    unfold shapeLoop
    rcases hr : res_[i]? with _ | r
    · simp only [Option.isSome_none]
      have : res_.length ≤ i := by simpa using hr
      constructor
      · intro h; cases h
      · rintro (h | h) <;> omega
    · have hi : i < res_.length := by
        by_contra hc
        have : res_[i]? = none := by simp; omega
        rw [this] at hr; cases hr
      simp only
      split
      · rw [ih]; omega
      · simp; omega

theorem shapeLoop_eq (res_ : List Int) : ∀ (n i : Nat) (nc : Int),
    i + n ≤ res_.length → i + n ≤ 3 →
    shapeLoop res_ n i nc = some (mulCells nc ((res_.drop i).take n)) := by
  intro n
  induction n with
  | zero => intro i nc _ _; simp [shapeLoop, mulCells]
  | succ n ih =>
    intro i nc h1 h2
    have hi : i < res_.length := by omega
    unfold shapeLoop
    rw [List.getElem?_eq_getElem hi]
    simp only
    rw [if_pos (by omega), ih (i + 1) _ (by omega) (by omega)]
    rw [List.drop_eq_getElem_cons hi]
    simp only [mulCells, List.take_succ_cons, List.foldl_cons]

theorem GetAttrResolution_eq (l : List Int) :
    GetAttrResolution l =
      match l.find? (fun v => decide (wrap32 v ≠ v)) with
      | some v => Except.error (Status.InvalidArgument (Message.attrRange v))
      | none => Except.ok l := by
  induction l with
  | nil => rfl
  | cons v rest ih =>
    unfold GetAttrResolution
    by_cases hv : wrap32 v ≠ v
    · rw [if_pos hv, List.find?_cons_of_pos _ (by simpa using hv)]
    · rw [if_neg hv, List.find?_cons_of_neg _ (by simpa using hv), ih]
      rcases List.find? (fun v => decide (wrap32 v ≠ v)) rest with _ | w
      · simp only [not_not.1 hv]
      · rfl

theorem GetAttrResolution_of_fits (l : List Int) (h : ∀ v ∈ l, wrap32 v = v) :
    GetAttrResolution l = Except.ok l := by
  rw [GetAttrResolution_eq]
  have : l.find? (fun v => decide (wrap32 v ≠ v)) = none := by
    rw [List.find?_eq_none]
    intro v hv
    simpa using h v hv
  rw [this]

theorem GetAttrResolution_ok (l res_ : List Int) (h : GetAttrResolution l = Except.ok res_) :
    res_ = l ∧ ∀ v ∈ l, wrap32 v = v := by
  rw [GetAttrResolution_eq] at h
  rcases hf : l.find? (fun v => decide (wrap32 v ≠ v)) with _ | w
  · rw [hf] at h
    injection h with h
    refine ⟨h.symm, ?_⟩
    rw [List.find?_eq_none] at hf
    intro v hv
    simpa using hf v hv
  · rw [hf] at h
    cases h

theorem GetAttrResolution_error (l : List Int) (e : Status)
    (h : GetAttrResolution l = Except.error e) :
    ∃ v, v ∈ l ∧ wrap32 v ≠ v ∧ l.find? (fun v => decide (wrap32 v ≠ v)) = some v ∧
      e = Status.InvalidArgument (Message.attrRange v) := by
  rw [GetAttrResolution_eq] at h
  rcases hf : l.find? (fun v => decide (wrap32 v ≠ v)) with _ | w
  · rw [hf] at h
    cases h
  · rw [hf] at h
    injection h with h
    have hm := List.mem_of_find?_eq_some hf
    have hp := List.find?_some hf
    exact ⟨w, hm, by simpa using hp, rfl, h.symm⟩

theorem DimensionOrConstant_of_ok (dchecks : Bool) (val : Int)
    (h : dchecks = true → 0 ≤ val ∨ val = kUnknownDim) :
    DimensionOrConstant dchecks val = some val := by
  unfold DimensionOrConstant
  cases dchecks with
  | false => rfl
  | true => rw [if_pos rfl, if_pos (h rfl)]

theorem DimensionOrConstant_some (dchecks : Bool) (val w : Int)
    (h : DimensionOrConstant dchecks val = some w) :
    w = val ∧ (dchecks = true → 0 ≤ val ∨ val = kUnknownDim) := by
  unfold DimensionOrConstant at h
  cases dchecks with
  | false =>
    simp only [Bool.false_eq_true, if_false] at h
    injection h with h
    exact ⟨h.symm, fun hc => by cases hc⟩
  | true =>
    rw [if_pos rfl] at h
    by_cases hv : 0 ≤ val ∨ val = kUnknownDim
    · rw [if_pos hv] at h
      injection h with h
      exact ⟨h.symm, fun _ => hv⟩
    · rw [if_neg hv] at h
      cases h

theorem DimensionOrConstant_none (dchecks : Bool) (val : Int)
    (h : DimensionOrConstant dchecks val = none) :
    dchecks = true ∧ ¬ (0 ≤ val ∨ val = kUnknownDim) := by
  unfold DimensionOrConstant at h
  cases dchecks with
  | false => simp only [Bool.false_eq_true, if_false] at h; cases h
  | true =>
    rw [if_pos rfl] at h
    by_cases hv : 0 ≤ val ∨ val = kUnknownDim
    · rw [if_pos hv] at h; cases h
    · exact ⟨rfl, hv⟩

theorem MpmShapeFn_eq_guard (dchecks : Bool) (c : InferenceContext) (x v F C : ShapeHandle)
    (h0 : WithRank (c.input 0) 3 = Except.ok x) (h1 : WithRank (c.input 1) 3 = Except.ok v)
    (h2 : WithRank (c.input 2) 4 = Except.ok F) (h3 : WithRank (c.input 3) 4 = Except.ok C) :
    MpmShapeFn dchecks c = guardMerges (mergePairs x v F C) c (afterChecks dchecks c x v F C) := by
  unfold MpmShapeFn
  rw [h0, h1, h2, h3]
  rfl

theorem Merge_isOk_iff (d0 d1 : Int) :
    (Merge d0 d1).isOk = true ↔ (d1 = kUnknownDim ∨ d0 = kUnknownDim ∨ d0 = d1) := by
  unfold Merge
  by_cases h1 : d1 = kUnknownDim
  · simp [h1, Except.isOk, Except.toBool]
  · by_cases h0 : d0 = kUnknownDim
    · simp [h1, h0, Except.isOk, Except.toBool]
    · by_cases h : d0 = d1
      · simp [h1, h, Except.isOk, Except.toBool]
      · simp [h1, h0, h, Except.isOk, Except.toBool]

theorem Merge_error (d0 d1 : Int) (e : Status) (h : Merge d0 d1 = Except.error e) :
    e = Status.InvalidArgument (Message.dimensions d0 d1) := by
  unfold Merge at h
  split_ifs at h
  injection h with h
  exact h.symm

theorem WithRank_error (s : ShapeHandle) (r : Nat) (e : Status)
    (h : WithRank s r = Except.error e) : ∃ m, e = Status.InvalidArgument m := by
  unfold WithRank at h
  cases s with
  | unknownRank => simp at h
  | dims ds =>
    simp only at h
    split_ifs at h
    injection h with h
    exact ⟨_, h.symm⟩

theorem WithRank_dims (ds : List Int) (r : Nat) (h : ds.length = r) :
    WithRank (dims ds) r = Except.ok (dims ds) := by
  simp [WithRank, h]

theorem guardMerges_pass (c : InferenceContext) (k : Outcome × InferenceContext) :
    ∀ ps : List (Int × Int),
    ps.all (fun p => (Merge p.1 p.2).isOk) = true → guardMerges ps c k = k := by
  intro ps
  induction ps with
  | nil => intro _; rfl
  | cons p ps ih =>
    intro h
    simp only [List.all_cons, Bool.and_eq_true] at h
    unfold guardMerges
    rcases hm : Merge p.1 p.2 with e | r
    · rw [hm] at h; simp [Except.isOk, Except.toBool] at h
    · exact ih h.2

theorem guardMerges_fail (c : InferenceContext) (k : Outcome × InferenceContext) :
    ∀ ps : List (Int × Int),
    ps.all (fun p => (Merge p.1 p.2).isOk) = false →
    ∃ m, guardMerges ps c k = (Outcome.returned (Status.InvalidArgument m), c) := by
  intro ps
  induction ps with
  | nil => intro h; simp at h
  | cons p ps ih =>
    intro h
    unfold guardMerges
    rcases hm : Merge p.1 p.2 with e | r
    · exact ⟨_, by rw [Merge_error _ _ _ hm]⟩
    · simp only [List.all_cons, hm, Except.isOk, Except.toBool, Bool.true_and] at h
      exact ih h

/-- The shape function either returns an `InvalidArgument` error from a rank
or merge check, leaving the context as it was, or passes all of them and
continues at line 73. -/
theorem MpmShapeFn_early (dchecks : Bool) (c : InferenceContext) :
    (∃ m, MpmShapeFn dchecks c = (Outcome.returned (Status.InvalidArgument m), c)) ∨
    (∃ x v F C, WithRank (c.input 0) 3 = Except.ok x ∧ WithRank (c.input 1) 3 = Except.ok v ∧
      WithRank (c.input 2) 4 = Except.ok F ∧ WithRank (c.input 3) 4 = Except.ok C ∧
      mergesPass x v F C = true ∧
      MpmShapeFn dchecks c = afterChecks dchecks c x v F C) := by
  rcases h0 : WithRank (c.input 0) 3 with e | x
  · obtain ⟨m, rfl⟩ := WithRank_error _ _ _ h0
    exact Or.inl ⟨m, by unfold MpmShapeFn; rw [h0]⟩
  rcases h1 : WithRank (c.input 1) 3 with e | v
  · obtain ⟨m, rfl⟩ := WithRank_error _ _ _ h1
    exact Or.inl ⟨m, by unfold MpmShapeFn; rw [h0, h1]⟩
  rcases h2 : WithRank (c.input 2) 4 with e | F
  · obtain ⟨m, rfl⟩ := WithRank_error _ _ _ h2
    exact Or.inl ⟨m, by unfold MpmShapeFn; rw [h0, h1, h2]⟩
  rcases h3 : WithRank (c.input 3) 4 with e | C
  · obtain ⟨m, rfl⟩ := WithRank_error _ _ _ h3
    exact Or.inl ⟨m, by unfold MpmShapeFn; rw [h0, h1, h2, h3]⟩
  rw [MpmShapeFn_eq_guard dchecks c x v F C h0 h1 h2 h3]
  rcases hp : mergesPass x v F C with _ | _
  · exact Or.inl (guardMerges_fail c _ _ hp)
  · exact Or.inr ⟨x, v, F, C, rfl, rfl, rfl, rfl, hp, guardMerges_pass c _ _ hp⟩

/-- Claim C1: when `position` has rank 3 and `affine` has rank 4, and the
particle-count axis of `affine` (input 2, axis 3) is a known value different
from the known particle-count axis of `position` (input 0, axis 2), the shape
function returns an `InvalidArgument` error and no output shape has been set,
whatever the shapes of `velocity` and `deformation` are, with and without
debug checks. -/
theorem C1_particle_mismatch_is_rejected_before_any_output (dchecks : Bool)
    (b0 d0 n0 b2 d21 d22 n2 : Int) (v C : ShapeHandle) (attrs : Attrs)
    (hn0 : n0 ≠ kUnknownDim) (hn2 : n2 ≠ kUnknownDim) (hne : n2 ≠ n0) :
    ∃ m,
      (MpmShapeFn dchecks (InferenceContext.init (dims [b0, d0, n0]) v
        (dims [b2, d21, d22, n2]) C attrs)).1
        = Outcome.returned (Status.InvalidArgument m) ∧
      (MpmShapeFn dchecks (InferenceContext.init (dims [b0, d0, n0]) v
        (dims [b2, d21, d22, n2]) C attrs)).2.outputs = List.replicate 6 none := by
  rcases MpmShapeFn_early dchecks (InferenceContext.init (dims [b0, d0, n0]) v
        (dims [b2, d21, d22, n2]) C attrs) with ⟨m, hm⟩ | ⟨x, v', F, C', h0, _, h2, _, hp, _⟩
  · exact ⟨m, by rw [hm], by rw [hm]; rfl⟩
  · exfalso
    have hx : x = dims [b0, d0, n0] := by
      have := WithRank_dims [b0, d0, n0] 3 rfl
      simp only [InferenceContext.init, InferenceContext.input, List.getD_cons_zero] at h0
      rw [this] at h0; injection h0 with h0; exact h0.symm
    have hF : F = dims [b2, d21, d22, n2] := by
      have := WithRank_dims [b2, d21, d22, n2] 4 rfl
      simp only [InferenceContext.init, InferenceContext.input, List.getD_cons_succ, List.getD_cons_zero] at h2
      rw [this] at h2; injection h2 with h2; exact h2.symm
    subst hx hF
    simp only [mergesPass, mergePairs, List.all_cons, Bool.and_eq_true, Merge_isOk_iff] at hp
    have := hp.2.2.2.2.2.2.2.2.2.1
    simp only [Dim, List.getD_cons_succ, List.getD_cons_zero] at this
    rcases this with h | h | h
    · exact hn2 h
    · exact hn0 h
    · exact hne h.symm

/-- Claim C1, witness: `position` `(1, 2, 5)` against `affine` `(1, 2, 2, 6)`. -/
theorem C1_witness :
    ((5 : Int) ≠ kUnknownDim ∧ (6 : Int) ≠ kUnknownDim ∧ (6 : Int) ≠ 5) ∧
    ∃ m,
      (MpmShapeFn true (InferenceContext.init (dims [1, 2, 5]) (dims [1, 2, 5])
        (dims [1, 2, 2, 6]) (dims [1, 2, 2, 5])
        ⟨⟨1⟩, ⟨1⟩, ⟨1⟩, ⟨1⟩, ⟨1⟩, ⟨1⟩, [⟨0⟩, ⟨0⟩], [4, 4]⟩)).1
        = Outcome.returned (Status.InvalidArgument m) ∧
      (MpmShapeFn true (InferenceContext.init (dims [1, 2, 5]) (dims [1, 2, 5])
        (dims [1, 2, 2, 6]) (dims [1, 2, 2, 5])
        ⟨⟨1⟩, ⟨1⟩, ⟨1⟩, ⟨1⟩, ⟨1⟩, ⟨1⟩, [⟨0⟩, ⟨0⟩], [4, 4]⟩)).2.outputs
        = List.replicate 6 none :=
  ⟨⟨by decide, by decide, by decide⟩,
    C1_particle_mismatch_is_rejected_before_any_output true 1 2 5 1 2 2 6 (dims [1, 2, 5])
      (dims [1, 2, 2, 5]) ⟨⟨1⟩, ⟨1⟩, ⟨1⟩, ⟨1⟩, ⟨1⟩, ⟨1⟩, [⟨0⟩, ⟨0⟩], [4, 4]⟩
      (by decide) (by decide) (by decide)⟩

theorem agree_of_isOk (d0 d1 : Int) (h : (Merge d0 d1).isOk = true) : agree d0 d1 := by
  rcases (Merge_isOk_iff d0 d1).1 h with h | h | h
  · exact Or.inr (Or.inl h)
  · exact Or.inl h
  · exact Or.inr (Or.inr h)

theorem agree_eq {a b : Int} (h : agree a b) (ha : a ≠ kUnknownDim)
    (hb : b ≠ kUnknownDim) : a = b := by
  rcases h with h | h | h
  · exact absurd h ha
  · exact absurd h hb
  · exact h

theorem MpmShapeFn_init_dims (dchecks : Bool) (x v F C : List Int) (a : Attrs)
    (hx : x.length = 3) (hv : v.length = 3) (hF : F.length = 4) (hC : C.length = 4) :
    MpmShapeFn dchecks (InferenceContext.init (dims x) (dims v) (dims F) (dims C) a) =
      guardMerges (mergePairs (dims x) (dims v) (dims F) (dims C))
        (InferenceContext.init (dims x) (dims v) (dims F) (dims C) a)
        (afterChecks dchecks (InferenceContext.init (dims x) (dims v) (dims F) (dims C) a)
          (dims x) (dims v) (dims F) (dims C)) :=
  MpmShapeFn_eq_guard _ _ _ _ _ _ (WithRank_dims x 3 hx) (WithRank_dims v 3 hv)
    (WithRank_dims F 4 hF) (WithRank_dims C 4 hC)

theorem afterChecks_fst (dchecks : Bool) (c : InferenceContext) (x v F C : ShapeHandle) :
    (afterChecks dchecks c x v F C).1 =
      match GetAttrResolution c.attrs.resolution with
      | Except.error e => Outcome.returned e
      | Except.ok res_ =>
        if (c.attrs.gravity.length : Int) ≠ readInt (Dim x 1) then
          Outcome.returned (Status.InvalidArgument
            (Message.gravityLength (readInt (Dim x 1)) c.attrs.gravity.length))
        else if (res_.length : Int) ≠ readInt (Dim x 1) then
          Outcome.returned (Status.InvalidArgument
            (Message.resolutionLength (readInt (Dim x 1)) res_.length))
        else
          match shapeLoop res_ (readInt (Dim x 1)).toNat 0 1 with
          | none => Outcome.undefined
          | some num_cells =>
            match DimensionOrConstant dchecks num_cells with
            | none => Outcome.fatal
            | some _ =>
              match DimensionOrConstant dchecks (wrap32 (readInt (Dim x 1) + 1)) with
              | none => Outcome.fatal
              | some _ => Outcome.returned Status.OK := by
  simp only [afterChecks, InferenceContext.set_output]
  rcases GetAttrResolution c.attrs.resolution with e | res_
  · rfl
  simp only
  by_cases h1 : (c.attrs.gravity.length : Int) ≠ readInt (Dim x 1)
  · rw [if_pos h1, if_pos h1]
  rw [if_neg h1, if_neg h1]
  by_cases h2 : (res_.length : Int) ≠ readInt (Dim x 1)
  · rw [if_pos h2, if_pos h2]
  rw [if_neg h2, if_neg h2]
  rcases shapeLoop res_ (readInt (Dim x 1)).toNat 0 1 with _ | nc
  · rfl
  simp only
  rcases DimensionOrConstant dchecks nc with _ | d1
  · rfl
  simp only
  rcases DimensionOrConstant dchecks (wrap32 (readInt (Dim x 1) + 1)) with _ | d2
  · rfl
  · rfl

/-- When the entries of `resolution` fit an `int`, lines 73-107 end as
follows. -/
theorem afterChecks_fst_fits (dchecks : Bool) (c : InferenceContext) (x v F C : ShapeHandle)
    (hfit : ∀ r ∈ c.attrs.resolution, wrap32 r = r) :
    (afterChecks dchecks c x v F C).1 =
      if (c.attrs.gravity.length : Int) ≠ readInt (Dim x 1) then
        Outcome.returned (Status.InvalidArgument
          (Message.gravityLength (readInt (Dim x 1)) c.attrs.gravity.length))
      else if (c.attrs.resolution.length : Int) ≠ readInt (Dim x 1) then
        Outcome.returned (Status.InvalidArgument
          (Message.resolutionLength (readInt (Dim x 1)) c.attrs.resolution.length))
      else
        match shapeLoop c.attrs.resolution (readInt (Dim x 1)).toNat 0 1 with
        | none => Outcome.undefined
        | some num_cells =>
          match DimensionOrConstant dchecks num_cells with
          | none => Outcome.fatal
          | some _ =>
            match DimensionOrConstant dchecks (wrap32 (readInt (Dim x 1) + 1)) with
            | none => Outcome.fatal
            | some _ => Outcome.returned Status.OK := by
  rw [afterChecks_fst, GetAttrResolution_of_fits _ hfit]

/-- Claim C2 fails as stated: with position `(?, 2, ?)`, velocity `(3, 2, 7)`,
affine `(5, 2, 2, 9)` and deformation `(3, 2, 2, 7)` the shape function
returns OK (with and without debug checks), although the known batch sizes 3 and 5 differ and the known
particle counts 7 and 9 differ (so the axes are not pairwise equal, not even
up to unknown dimensions). -/
theorem C2_accepts_differing_known_batch_sizes :
    (MpmShapeFn false (InferenceContext.init (dims [-1, 2, -1]) (dims [3, 2, 7])
      (dims [5, 2, 2, 9]) (dims [3, 2, 2, 7])
      ⟨⟨1⟩, ⟨1⟩, ⟨1⟩, ⟨1⟩, ⟨1⟩, ⟨1⟩, [⟨0⟩, ⟨0⟩], [4, 4]⟩)).1
      = Outcome.returned Status.OK ∧
    (MpmShapeFn true (InferenceContext.init (dims [-1, 2, -1]) (dims [3, 2, 7])
      (dims [5, 2, 2, 9]) (dims [3, 2, 2, 7])
      ⟨⟨1⟩, ⟨1⟩, ⟨1⟩, ⟨1⟩, ⟨1⟩, ⟨1⟩, [⟨0⟩, ⟨0⟩], [4, 4]⟩)).1
      = Outcome.returned Status.OK ∧
    ¬ List.Pairwise agree (batchAxes (dims [-1, 2, -1]) (dims [3, 2, 7])
      (dims [5, 2, 2, 9]) (dims [3, 2, 2, 7])) ∧
    ¬ List.Pairwise agree (particleAxes (dims [-1, 2, -1]) (dims [3, 2, 7])
      (dims [5, 2, 2, 9]) (dims [3, 2, 2, 7])) := by
  decide

/-- Claim C2, amended: when the shape function returns OK on inputs of ranks
3, 3, 4, 4, every batch, spatial and particle axis of velocity, affine and
deformation agrees with the corresponding axis of position (one of the two is
unknown or they are equal); and when all fourteen dimensions are known, the
four batch axes, the six spatial axes and the four particle axes are pairwise
equal. -/
theorem C2_accepted_axes_agree_with_position (dchecks : Bool)
    (b0 d0 n0 b1 d1 n1 b2 d21 d22 n2 b3 d31 d32 n3 : Int) (a : Attrs)
    (h : (MpmShapeFn dchecks (InferenceContext.init (dims [b0, d0, n0]) (dims [b1, d1, n1])
      (dims [b2, d21, d22, n2]) (dims [b3, d31, d32, n3]) a)).1
      = Outcome.returned Status.OK) :
    (agree b0 b1 ∧ agree b0 b2 ∧ agree b0 b3) ∧
    (agree d0 d1 ∧ agree d0 d21 ∧ agree d0 d22 ∧ agree d0 d31 ∧ agree d0 d32) ∧
    (agree n0 n1 ∧ agree n0 n2 ∧ agree n0 n3) ∧
    ((∀ d ∈ [b0, d0, n0, b1, d1, n1, b2, d21, d22, n2, b3, d31, d32, n3],
        d ≠ kUnknownDim) →
      List.Pairwise (fun p q => p = q) (batchAxes (dims [b0, d0, n0]) (dims [b1, d1, n1])
        (dims [b2, d21, d22, n2]) (dims [b3, d31, d32, n3])) ∧
      List.Pairwise (fun p q => p = q) (spatialAxes (dims [b0, d0, n0]) (dims [b1, d1, n1])
        (dims [b2, d21, d22, n2]) (dims [b3, d31, d32, n3])) ∧
      List.Pairwise (fun p q => p = q) (particleAxes (dims [b0, d0, n0]) (dims [b1, d1, n1])
        (dims [b2, d21, d22, n2]) (dims [b3, d31, d32, n3]))) := by
  rw [MpmShapeFn_init_dims dchecks [b0, d0, n0] [b1, d1, n1] [b2, d21, d22, n2] [b3, d31, d32, n3] a
    rfl rfl rfl rfl] at h
  rcases hp : mergesPass (dims [b0, d0, n0]) (dims [b1, d1, n1])
      (dims [b2, d21, d22, n2]) (dims [b3, d31, d32, n3]) with _ | _
  · obtain ⟨m, hm⟩ := guardMerges_fail _ _ _ hp
    rw [hm] at h
    cases h
  · simp only [mergesPass, mergePairs, List.all_cons, List.all_nil, Bool.and_true,
      Bool.and_eq_true, Dim, List.getD_cons_succ, List.getD_cons_zero] at hp
    obtain ⟨h1, h2, h3, h4, h5, h6, h7, h8, h9, h10, h11⟩ := hp
    have a1 := agree_of_isOk _ _ h1
    have a2 := agree_of_isOk _ _ h2
    have a3 := agree_of_isOk _ _ h3
    have a4 := agree_of_isOk _ _ h4
    have a5 := agree_of_isOk _ _ h5
    have a6 := agree_of_isOk _ _ h6
    have a7 := agree_of_isOk _ _ h7
    have a8 := agree_of_isOk _ _ h8
    have a9 := agree_of_isOk _ _ h9
    have a10 := agree_of_isOk _ _ h10
    have a11 := agree_of_isOk _ _ h11
    refine ⟨⟨a1, a2, a3⟩, ⟨a4, a5, a6, a7, a8⟩, ⟨a9, a10, a11⟩, ?_⟩
    intro hk
    have e1 : b0 = b1 := agree_eq a1 (hk _ (by simp)) (hk _ (by simp))
    have e2 : b0 = b2 := agree_eq a2 (hk _ (by simp)) (hk _ (by simp))
    have e3 : b0 = b3 := agree_eq a3 (hk _ (by simp)) (hk _ (by simp))
    have e4 : d0 = d1 := agree_eq a4 (hk _ (by simp)) (hk _ (by simp))
    have e5 : d0 = d21 := agree_eq a5 (hk _ (by simp)) (hk _ (by simp))
    have e6 : d0 = d22 := agree_eq a6 (hk _ (by simp)) (hk _ (by simp))
    have e7 : d0 = d31 := agree_eq a7 (hk _ (by simp)) (hk _ (by simp))
    have e8 : d0 = d32 := agree_eq a8 (hk _ (by simp)) (hk _ (by simp))
    have e9 : n0 = n1 := agree_eq a9 (hk _ (by simp)) (hk _ (by simp))
    have e10 : n0 = n2 := agree_eq a10 (hk _ (by simp)) (hk _ (by simp))
    have e11 : n0 = n3 := agree_eq a11 (hk _ (by simp)) (hk _ (by simp))
    subst e1 e2 e3 e4 e5 e6 e7 e8 e9 e10 e11
    simp [batchAxes, spatialAxes, particleAxes, Dim]

/-- Claim C2, witness: four fully known compatible shapes. -/
theorem C2_witness :
    (MpmShapeFn true (InferenceContext.init (dims [1, 2, 5]) (dims [1, 2, 5])
      (dims [1, 2, 2, 5]) (dims [1, 2, 2, 5])
      ⟨⟨1⟩, ⟨1⟩, ⟨1⟩, ⟨1⟩, ⟨1⟩, ⟨1⟩, [⟨0⟩, ⟨0⟩], [4, 4]⟩)).1
      = Outcome.returned Status.OK ∧
    (agree 1 1 ∧ agree 1 1 ∧ agree 1 1) ∧
    (agree 2 2 ∧ agree 2 2 ∧ agree 2 2 ∧ agree 2 2 ∧ agree 2 2) ∧
    (agree 5 5 ∧ agree 5 5 ∧ agree 5 5) :=
  ⟨by decide,
    (C2_accepted_axes_agree_with_position true 1 2 5 1 2 5 1 2 2 5 1 2 2 5
      ⟨⟨1⟩, ⟨1⟩, ⟨1⟩, ⟨1⟩, ⟨1⟩, ⟨1⟩, [⟨0⟩, ⟨0⟩], [4, 4]⟩ (by decide)).1,
    (C2_accepted_axes_agree_with_position true 1 2 5 1 2 5 1 2 2 5 1 2 2 5
      ⟨⟨1⟩, ⟨1⟩, ⟨1⟩, ⟨1⟩, ⟨1⟩, ⟨1⟩, [⟨0⟩, ⟨0⟩], [4, 4]⟩ (by decide)).2.1,
    (C2_accepted_axes_agree_with_position true 1 2 5 1 2 5 1 2 2 5 1 2 2 5
      ⟨⟨1⟩, ⟨1⟩, ⟨1⟩, ⟨1⟩, ⟨1⟩, ⟨1⟩, [⟨0⟩, ⟨0⟩], [4, 4]⟩ (by decide)).2.2.1⟩

theorem firstNonPositive_eq_none (a : Attrs) :
    firstNonPositive a = none ↔
      (a.dt.gtZero = true ∧ a.dx.gtZero = true ∧ a.E.gtZero = true ∧
       a.nu.gtZero = true ∧ a.m_p.gtZero = true ∧ a.V_p.gtZero = true) := by
  unfold firstNonPositive checkedAttrs
  simp [List.find?_eq_none]

/-- The constructor by cases: `dt` and `dx` are checked before `resolution`
is read, the other four attributes after it. -/
theorem construct_eq (a : Attrs) :
    MPMOpGPU.construct a =
      if a.dt.gtZero = false then
        Except.error (Status.InvalidArgument (Message.needPositive ScalarAttr.dt a.dt))
      else if a.dx.gtZero = false then
        Except.error (Status.InvalidArgument (Message.needPositive ScalarAttr.dx a.dx))
      else
        match a.resolution.find? (fun v => decide (wrap32 v ≠ v)) with
        | some v => Except.error (Status.InvalidArgument (Message.attrRange v))
        | none =>
          match firstNonPositive a with
          | none => Except.ok ⟨a.dt, a.dx, a.m_p, a.V_p, a.E, a.nu, a.gravity, a.resolution⟩
          | some p => Except.error (Status.InvalidArgument (Message.needPositive p.1 p.2)) := by
  simp only [MPMOpGPU.construct, GetAttrResolution_eq, firstNonPositive, checkedAttrs]
  cases h1 : a.dt.gtZero
  · simp
  cases h2 : a.dx.gtZero
  · simp
  rcases List.find? (fun v => decide (wrap32 v ≠ v)) a.resolution with _ | w
  swap
  · simp
  cases h3 : a.E.gtZero
  · simp [List.find?, h1, h2, h3]
  cases h4 : a.nu.gtZero
  · simp [List.find?, h1, h2, h3, h4]
  cases h5 : a.m_p.gtZero
  · simp [List.find?, h1, h2, h3, h4, h5]
  cases h6 : a.V_p.gtZero
  · simp [List.find?, h1, h2, h3, h4, h5, h6]
  simp [List.find?, h1, h2, h3, h4, h5, h6]

theorem find_outOfRange_eq_none (l : List Int) :
    l.find? (fun v => decide (wrap32 v ≠ v)) = none ↔ ∀ r ∈ l, wrap32 r = r := by
  rw [List.find?_eq_none]
  constructor
  · intro h r hr
    simpa using h r hr
  · intro h r hr
    simpa using h r hr

theorem construct_ok_fields (a : Attrs) (k : MPMOpGPU) (h : MPMOpGPU.construct a = Except.ok k) :
    k = ⟨a.dt, a.dx, a.m_p, a.V_p, a.E, a.nu, a.gravity, a.resolution⟩ ∧
    firstNonPositive a = none ∧ ∀ r ∈ a.resolution, wrap32 r = r := by
  rw [construct_eq] at h
  by_cases h1 : a.dt.gtZero = false
  · rw [if_pos h1] at h; cases h
  rw [if_neg h1] at h
  by_cases h2 : a.dx.gtZero = false
  · rw [if_pos h2] at h; cases h
  rw [if_neg h2] at h
  rcases hf : List.find? (fun v => decide (wrap32 v ≠ v)) a.resolution with _ | w
  swap
  · rw [hf] at h; cases h
  rw [hf] at h
  rcases hp : firstNonPositive a with _ | p
  swap
  · rw [hp] at h; cases h
  rw [hp] at h
  injection h with h
  exact ⟨h.symm, rfl, (find_outOfRange_eq_none _).1 hf⟩

theorem construct_of_valid (a : Attrs) (hp : firstNonPositive a = none)
    (hfit : ∀ r ∈ a.resolution, wrap32 r = r) :
    MPMOpGPU.construct a =
      Except.ok ⟨a.dt, a.dx, a.m_p, a.V_p, a.E, a.nu, a.gravity, a.resolution⟩ := by
  have h := (firstNonPositive_eq_none a).1 hp
  rw [construct_eq, if_neg (by rw [h.1]; decide), if_neg (by rw [h.2.1]; decide),
    (find_outOfRange_eq_none _).2 hfit, hp]

/-- Claim C4 fails as stated: with all six scalar attributes `> 0` and the
resolution `[2^32, 3]` the constructor fails, on the read of `resolution` into
a `std::vector<int>`; and with `E = 0` in addition, the error is still the one
of that read and not the one that carries the value of `E`, the first
attribute that is not `> 0`. -/
theorem C4_resolution_outside_int_fails_construction :
    (firstNonPositive ⟨⟨1⟩, ⟨1⟩, ⟨1⟩, ⟨1⟩, ⟨1⟩, ⟨1⟩, [⟨0⟩, ⟨0⟩], [4294967296, 3]⟩ = none ∧
      MPMOpGPU.construct ⟨⟨1⟩, ⟨1⟩, ⟨1⟩, ⟨1⟩, ⟨1⟩, ⟨1⟩, [⟨0⟩, ⟨0⟩], [4294967296, 3]⟩
        = Except.error (Status.InvalidArgument (Message.attrRange 4294967296))) ∧
    (firstNonPositive ⟨⟨1⟩, ⟨1⟩, ⟨0⟩, ⟨1⟩, ⟨1⟩, ⟨1⟩, [⟨0⟩, ⟨0⟩], [4294967296, 3]⟩
        = some (ScalarAttr.E, ⟨0⟩) ∧
      MPMOpGPU.construct ⟨⟨1⟩, ⟨1⟩, ⟨0⟩, ⟨1⟩, ⟨1⟩, ⟨1⟩, [⟨0⟩, ⟨0⟩], [4294967296, 3]⟩
        = Except.error (Status.InvalidArgument (Message.attrRange 4294967296))) :=
  ⟨⟨by decide, rfl⟩, ⟨by decide, rfl⟩⟩

/-- Claim C4, amended.  The constructor succeeds if and only if `dt`, `dx`,
`E`, `nu`, `m_p` and `V_p` are all `> 0` and every entry of `resolution` is the
value of an `int`.  When every entry of `resolution` is the value of an `int`,
it succeeds if and only if the six attributes are all `> 0`, and when one is
not, the `InvalidArgument` error carries the name and value of the first such
attribute in the order `dt`, `dx`, `E`, `nu`, `m_p`, `V_p`.  When `v` is the
first entry of `resolution` that is not the value of an `int`, the constructor
fails: with the error for `dt` or `dx` if one of them is not `> 0`, and
otherwise with the error of the read of `resolution`, which carries `v`.  A
constructed kernel holds the attributes. -/
theorem C4_constructor_succeeds_iff_positive_and_resolution_fits (a : Attrs) :
    ((∃ k, MPMOpGPU.construct a = Except.ok k) ↔
      ((a.dt.gtZero = true ∧ a.dx.gtZero = true ∧ a.E.gtZero = true ∧
        a.nu.gtZero = true ∧ a.m_p.gtZero = true ∧ a.V_p.gtZero = true) ∧
       ∀ r ∈ a.resolution, wrap32 r = r)) ∧
    ((∀ r ∈ a.resolution, wrap32 r = r) →
      ((∃ k, MPMOpGPU.construct a = Except.ok k) ↔
        (a.dt.gtZero = true ∧ a.dx.gtZero = true ∧ a.E.gtZero = true ∧
         a.nu.gtZero = true ∧ a.m_p.gtZero = true ∧ a.V_p.gtZero = true)) ∧
      (∀ attr value, firstNonPositive a = some (attr, value) →
        MPMOpGPU.construct a =
          Except.error (Status.InvalidArgument (Message.needPositive attr value)))) ∧
    (∀ v, a.resolution.find? (fun r => decide (wrap32 r ≠ r)) = some v →
      (a.dt.gtZero = false → MPMOpGPU.construct a =
        Except.error (Status.InvalidArgument (Message.needPositive ScalarAttr.dt a.dt))) ∧
      (a.dt.gtZero = true → a.dx.gtZero = false → MPMOpGPU.construct a =
        Except.error (Status.InvalidArgument (Message.needPositive ScalarAttr.dx a.dx))) ∧
      (a.dt.gtZero = true → a.dx.gtZero = true → MPMOpGPU.construct a =
        Except.error (Status.InvalidArgument (Message.attrRange v)))) ∧
    (∀ k, MPMOpGPU.construct a = Except.ok k →
      k = ⟨a.dt, a.dx, a.m_p, a.V_p, a.E, a.nu, a.gravity, a.resolution⟩) := by
  have hiff : (∃ k, MPMOpGPU.construct a = Except.ok k) ↔
      ((a.dt.gtZero = true ∧ a.dx.gtZero = true ∧ a.E.gtZero = true ∧
        a.nu.gtZero = true ∧ a.m_p.gtZero = true ∧ a.V_p.gtZero = true) ∧
       ∀ r ∈ a.resolution, wrap32 r = r) := by
    rw [← firstNonPositive_eq_none]
    constructor
    · rintro ⟨k, hk⟩
      exact (construct_ok_fields a k hk).2
    · rintro ⟨hp, hfit⟩
      exact ⟨_, construct_of_valid a hp hfit⟩
  refine ⟨hiff, ?_, ?_, ?_⟩
  · intro hfit
    refine ⟨?_, ?_⟩
    · rw [hiff]
      exact ⟨fun h => h.1, fun h => ⟨h, hfit⟩⟩
    · intro attr value hp
      have hdt : a.dt.gtZero = false → firstNonPositive a = some (ScalarAttr.dt, a.dt) := by
        intro h
        simp [firstNonPositive, checkedAttrs, List.find?, h]
      have hdx : a.dt.gtZero = true → a.dx.gtZero = false →
          firstNonPositive a = some (ScalarAttr.dx, a.dx) := by
        intro h h'
        simp [firstNonPositive, checkedAttrs, List.find?, h, h']
      rw [construct_eq]
      by_cases h1 : a.dt.gtZero = false
      · rw [if_pos h1]
        rw [hdt h1] at hp
        injection hp with hp
        injection hp with hp1 hp2
        rw [hp1, hp2]
      rw [if_neg h1]
      by_cases h2 : a.dx.gtZero = false
      · rw [if_pos h2]
        rw [hdx (by simpa using h1) h2] at hp
        injection hp with hp
        injection hp with hp1 hp2
        rw [hp1, hp2]
      rw [if_neg h2, (find_outOfRange_eq_none _).2 hfit, hp]
  · intro v hv
    refine ⟨?_, ?_, ?_⟩
    · intro h1
      rw [construct_eq, if_pos h1]
    · intro h1 h2
      rw [construct_eq, if_neg (by rw [h1]; decide), if_pos h2]
    · intro h1 h2
      rw [construct_eq, if_neg (by rw [h1]; decide), if_neg (by rw [h2]; decide), hv]
  · intro k hk
    exact (construct_ok_fields a k hk).1

/-- The value of `num_cells` computed by the loop of lines 92-97 when it runs
over the whole of `res_`. -/
theorem shapeLoop_full (res_ : List Int) (nc : Int)
    (h : shapeLoop res_ res_.length 0 1 = some nc) :
    res_.length ≤ 3 ∧ nc = wrap32 res_.prod := by
  have h3 : res_.length ≤ 3 := by
    have := (shapeLoop_isSome res_ res_.length 0 1).1 (by rw [h]; rfl)
    omega
  refine ⟨h3, ?_⟩
  rw [shapeLoop_eq res_ res_.length 0 1 (by omega) (by omega)] at h
  injection h with h
  rw [← h, List.drop_zero, List.take_length, mulCells_eq _ _ (by decide), one_mul]

/-- Claim C3 fails as stated, in five ways.  (1) With spatial dimension 2, two
entries in `gravity` and the resolution `[2^32, 3]`, both lengths equal the
dimension, yet the function returns an `InvalidArgument` error: the read of
`resolution` into a `std::vector<int>` fails.  (2) With spatial dimension 4 and
four entries in each list the function does not return OK: after both length
checks pass, the loop stores `res_[3]` beyond the local array `int res[3]`.
(3) With spatial dimension `2^32 + 2` and two entries in each list the function
returns OK although both lengths differ from the dimension: the `int` read at
line 78 yields 2.  (4) When the spatial axis of `position` is unknown and the
other inputs give the spatial dimension 2, lists of length 2 are rejected: the
`int` read at line 78 yields `-1`.  (5) Compiled with debug checks, with spatial
dimension 2 and the resolution `[-2, 3]`, both lengths equal the dimension, yet
the function does not return OK: the `DCHECK` of `DimensionOrConstant` aborts on
the negative `num_cells`. -/
theorem C3_length_tests_do_not_decide_the_outcome :
    ((MpmShapeFn false (InferenceContext.init (dims [1, 2, 5]) (dims [1, 2, 5]) (dims [1, 2, 2, 5])
        (dims [1, 2, 2, 5])
        ⟨⟨1⟩, ⟨1⟩, ⟨1⟩, ⟨1⟩, ⟨1⟩, ⟨1⟩, [⟨0⟩, ⟨0⟩], [4294967296, 3]⟩)).1
        = Outcome.returned (Status.InvalidArgument (Message.attrRange 4294967296)) ∧
      (([⟨0⟩, ⟨0⟩] : List Float32).length : Int) = 2 ∧
      (([4294967296, 3] : List Int).length : Int) = 2) ∧
    ((MpmShapeFn false (InferenceContext.init (dims [1, 4, 5]) (dims [1, 4, 5]) (dims [1, 4, 4, 5])
        (dims [1, 4, 4, 5])
        ⟨⟨1⟩, ⟨1⟩, ⟨1⟩, ⟨1⟩, ⟨1⟩, ⟨1⟩, [⟨0⟩, ⟨0⟩, ⟨0⟩, ⟨0⟩], [2, 2, 2, 2]⟩)).1
        = Outcome.undefined ∧
      (([⟨0⟩, ⟨0⟩, ⟨0⟩, ⟨0⟩] : List Float32).length : Int) = 4 ∧
      (([2, 2, 2, 2] : List Int).length : Int) = 4) ∧
    ((MpmShapeFn false (InferenceContext.init (dims [1, 4294967298, 5]) (dims [1, 4294967298, 5])
        (dims [1, 4294967298, 4294967298, 5]) (dims [1, 4294967298, 4294967298, 5])
        ⟨⟨1⟩, ⟨1⟩, ⟨1⟩, ⟨1⟩, ⟨1⟩, ⟨1⟩, [⟨0⟩, ⟨0⟩], [2, 2]⟩)).1
        = Outcome.returned Status.OK ∧
      (([⟨0⟩, ⟨0⟩] : List Float32).length : Int) ≠ 4294967298 ∧
      (([2, 2] : List Int).length : Int) ≠ 4294967298) ∧
    ((MpmShapeFn false (InferenceContext.init (dims [1, -1, 5]) (dims [1, 2, 5]) (dims [1, 2, 2, 5])
        (dims [1, 2, 2, 5])
        ⟨⟨1⟩, ⟨1⟩, ⟨1⟩, ⟨1⟩, ⟨1⟩, ⟨1⟩, [⟨0⟩, ⟨0⟩], [2, 2]⟩)).1
        = Outcome.returned (Status.InvalidArgument (Message.gravityLength (-1) 2)) ∧
      mergesPass (dims [1, -1, 5]) (dims [1, 2, 5]) (dims [1, 2, 2, 5]) (dims [1, 2, 2, 5])
        = true ∧
      spatialAxes (dims [1, -1, 5]) (dims [1, 2, 5]) (dims [1, 2, 2, 5]) (dims [1, 2, 2, 5])
        = [kUnknownDim, 2, 2, 2, 2, 2]) ∧
    ((MpmShapeFn true (InferenceContext.init (dims [1, 2, 5]) (dims [1, 2, 5]) (dims [1, 2, 2, 5])
        (dims [1, 2, 2, 5])
        ⟨⟨1⟩, ⟨1⟩, ⟨1⟩, ⟨1⟩, ⟨1⟩, ⟨1⟩, [⟨0⟩, ⟨0⟩], [-2, 3]⟩)).1
        = Outcome.fatal ∧
      (([⟨0⟩, ⟨0⟩] : List Float32).length : Int) = 2 ∧
      (([-2, 3] : List Int).length : Int) = 2) := by
  decide

/-- Claim C3, amended: on inputs that pass the rank checks and the eleven
merges, with a known spatial dimension `D = Dim x 1` of `position` below `2^31`
and a `resolution` whose entries are values of an `int`, the shape function
returns an `InvalidArgument` error if and only if `len(gravity) ≠ D` or
`len(resolution) ≠ D`, the error being the one about `gravity` when both are
wrong; it returns OK only when both lengths equal `D`; and for `D ≤ 3` (the
dimensions of the data model, and the size of the local array `res`) it returns
OK exactly when both lengths equal `D`, provided that, when the file is
compiled with debug checks, the 32 bit product of the resolution is not
negative or is `-1`. -/
theorem C3_attribute_length_checks (dchecks : Bool) (c : InferenceContext)
    (x v F C : ShapeHandle)
    (h0 : WithRank (c.input 0) 3 = Except.ok x) (h1 : WithRank (c.input 1) 3 = Except.ok v)
    (h2 : WithRank (c.input 2) 4 = Except.ok F) (h3 : WithRank (c.input 3) 4 = Except.ok C)
    (hm : mergesPass x v F C = true)
    (hD0 : 0 ≤ Dim x 1) (hD : Dim x 1 < 2147483648)
    (hfit : ∀ r ∈ c.attrs.resolution, wrap32 r = r) :
    ((∃ m, (MpmShapeFn dchecks c).1 = Outcome.returned (Status.InvalidArgument m)) ↔
      ((c.attrs.gravity.length : Int) ≠ Dim x 1 ∨
       (c.attrs.resolution.length : Int) ≠ Dim x 1)) ∧
    ((c.attrs.gravity.length : Int) ≠ Dim x 1 →
      (MpmShapeFn dchecks c).1 = Outcome.returned (Status.InvalidArgument
        (Message.gravityLength (Dim x 1) c.attrs.gravity.length))) ∧
    ((c.attrs.gravity.length : Int) = Dim x 1 →
      (c.attrs.resolution.length : Int) ≠ Dim x 1 →
      (MpmShapeFn dchecks c).1 = Outcome.returned (Status.InvalidArgument
        (Message.resolutionLength (Dim x 1) c.attrs.resolution.length))) ∧
    ((MpmShapeFn dchecks c).1 = Outcome.returned Status.OK →
      ((c.attrs.gravity.length : Int) = Dim x 1 ∧
       (c.attrs.resolution.length : Int) = Dim x 1)) ∧
    (Dim x 1 ≤ 3 →
      (dchecks = true → 0 ≤ wrap32 c.attrs.resolution.prod ∨
        wrap32 c.attrs.resolution.prod = kUnknownDim) →
      ((MpmShapeFn dchecks c).1 = Outcome.returned Status.OK ↔
        ((c.attrs.gravity.length : Int) = Dim x 1 ∧
         (c.attrs.resolution.length : Int) = Dim x 1))) := by
  have hw : readInt (Dim x 1) = Dim x 1 := wrap32_of_range _ (by omega) (by omega)
  rw [MpmShapeFn_eq_guard dchecks c x v F C h0 h1 h2 h3, guardMerges_pass _ _ _ hm,
    afterChecks_fst_fits dchecks c x v F C hfit, hw]
  by_cases e1 : (c.attrs.gravity.length : Int) = Dim x 1
  swap
  · simp [e1]
  by_cases e2 : (c.attrs.resolution.length : Int) = Dim x 1
  swap
  · simp [e1, e2]
  have hn : (Dim x 1).toNat = c.attrs.resolution.length := by omega
  rw [if_neg (not_not.2 e1), if_neg (not_not.2 e2), hn]
  rcases hs : shapeLoop c.attrs.resolution c.attrs.resolution.length 0 1 with _ | nc
  · have hbig : ¬ Dim x 1 ≤ 3 := by
      intro h3
      have := (shapeLoop_isSome c.attrs.resolution c.attrs.resolution.length 0 1).2
        (Or.inr ⟨by omega, by omega⟩)
      rw [hs] at this
      cases this
    simp [e1, e2, hbig]
  · obtain ⟨hl3, hnc⟩ := shapeLoop_full _ _ hs
    have hch : DimensionOrConstant dchecks (wrap32 (Dim x 1 + 1))
        = some (wrap32 (Dim x 1 + 1)) := by
      apply DimensionOrConstant_of_ok
      intro _
      left
      rw [wrap32_of_range _ (by omega) (by omega)]
      omega
    simp only [hch]
    rcases hc : DimensionOrConstant dchecks nc with _ | cells
    · obtain ⟨hd, hneg⟩ := DimensionOrConstant_none _ _ hc
      rw [hnc] at hneg
      simp only [e1, e2, ne_eq, not_true_eq_false, or_self, iff_false, not_exists,
        false_implies, and_self, iff_true, true_and, reduceCtorEq, not_false_eq_true,
        implies_true, hd, forall_const, imp_false]
      intro _
      exact hneg
    · simp [e1, e2]

/-- Claim C3, witness: `D = 2` with a `gravity` of length 3. -/
theorem C3_witness :
    ((MpmShapeFn true (InferenceContext.init (dims [1, 2, 5]) (dims [1, 2, 5]) (dims [1, 2, 2, 5])
        (dims [1, 2, 2, 5]) ⟨⟨1⟩, ⟨1⟩, ⟨1⟩, ⟨1⟩, ⟨1⟩, ⟨1⟩, [⟨0⟩, ⟨0⟩, ⟨0⟩], [4, 4]⟩)).1
      = Outcome.returned (Status.InvalidArgument (Message.gravityLength 2 3))) :=
  (C3_attribute_length_checks true
    (InferenceContext.init (dims [1, 2, 5]) (dims [1, 2, 5]) (dims [1, 2, 2, 5])
        (dims [1, 2, 2, 5]) ⟨⟨1⟩, ⟨1⟩, ⟨1⟩, ⟨1⟩, ⟨1⟩, ⟨1⟩, [⟨0⟩, ⟨0⟩, ⟨0⟩], [4, 4]⟩)
    (dims [1, 2, 5]) (dims [1, 2, 5]) (dims [1, 2, 2, 5]) (dims [1, 2, 2, 5])
    rfl rfl rfl rfl rfl (by decide) (by decide) (by decide)).2.1 (by decide)

theorem guardMerges_fst_rel (R : Outcome → Outcome → Prop)
    (hR : ∀ e, R (Outcome.returned e) (Outcome.returned e))
    (c c' : InferenceContext) (k k' : Outcome × InferenceContext)
    (hk : R k.1 k'.1) : ∀ ps : List (Int × Int),
    R (guardMerges ps c k).1 (guardMerges ps c' k').1 := by
  intro ps
  induction ps with
  | nil => exact hk
  | cons p ps ih =>
    unfold guardMerges
    rcases Merge p.1 p.2 with e | r
    · exact hR e
    · exact ih

/-- Two contexts with the same inputs: a relation between the outcomes that
holds of equal returned statuses and of the outcomes of lines 73-107 holds of
the outcomes of the shape function. -/
theorem MpmShapeFn_fst_rel (R : Outcome → Outcome → Prop)
    (hR : ∀ e, R (Outcome.returned e) (Outcome.returned e))
    (dchecks : Bool) (c c' : InferenceContext) (hin : c'.inputs = c.inputs)
    (hk : ∀ x v F C, R (afterChecks dchecks c' x v F C).1 (afterChecks dchecks c x v F C).1) :
    R (MpmShapeFn dchecks c').1 (MpmShapeFn dchecks c).1 := by
  have hi : ∀ i, c'.input i = c.input i := by
    intro i
    unfold InferenceContext.input
    rw [hin]
  rcases h0 : WithRank (c.input 0) 3 with e | x
  · have e1 : MpmShapeFn dchecks c = (Outcome.returned e, c) := by
      unfold MpmShapeFn; rw [h0]
    have e2 : MpmShapeFn dchecks c' = (Outcome.returned e, c') := by
      unfold MpmShapeFn; rw [hi, h0]
    rw [e1, e2]
    exact hR e
  rcases h1 : WithRank (c.input 1) 3 with e | v
  · have e1 : MpmShapeFn dchecks c = (Outcome.returned e, c) := by
      unfold MpmShapeFn; rw [h0, h1]
    have e2 : MpmShapeFn dchecks c' = (Outcome.returned e, c') := by
      unfold MpmShapeFn; rw [hi, hi, h0, h1]
    rw [e1, e2]
    exact hR e
  rcases h2 : WithRank (c.input 2) 4 with e | F
  · have e1 : MpmShapeFn dchecks c = (Outcome.returned e, c) := by
      unfold MpmShapeFn; rw [h0, h1, h2]
    have e2 : MpmShapeFn dchecks c' = (Outcome.returned e, c') := by
      unfold MpmShapeFn; rw [hi, hi, hi, h0, h1, h2]
    rw [e1, e2]
    exact hR e
  rcases h3 : WithRank (c.input 3) 4 with e | C
  · have e1 : MpmShapeFn dchecks c = (Outcome.returned e, c) := by
      unfold MpmShapeFn; rw [h0, h1, h2, h3]
    have e2 : MpmShapeFn dchecks c' = (Outcome.returned e, c') := by
      unfold MpmShapeFn; rw [hi, hi, hi, hi, h0, h1, h2, h3]
    rw [e1, e2]
    exact hR e
  rw [MpmShapeFn_eq_guard dchecks c x v F C h0 h1 h2 h3,
    MpmShapeFn_eq_guard dchecks c' x v F C (by rw [hi, h0]) (by rw [hi, h1]) (by rw [hi, h2])
      (by rw [hi, h3])]
  exact guardMerges_fst_rel R hR c' c _ _ (hk x v F C) _

theorem shapeLoop_isSome_congr (res res' : List Int) (h : res'.length = res.length)
    (n i : Nat) (nc : Int) :
    (shapeLoop res' n i nc).isSome = (shapeLoop res n i nc).isSome := by
  rw [Bool.eq_iff_iff, shapeLoop_isSome, shapeLoop_isSome, h]

/-- The outcomes of lines 73-107 for two resolutions of the same length whose
entries fit an `int`: the same error is returned or none, and the outcomes are
equal unless a debug check of `num_cells` can abort. -/
theorem afterChecks_fst_resolution (dchecks : Bool) (c c' : InferenceContext)
    (x v F C : ShapeHandle)
    (hg : c'.attrs.gravity = c.attrs.gravity)
    (hl : c'.attrs.resolution.length = c.attrs.resolution.length)
    (hfit : ∀ r ∈ c.attrs.resolution, wrap32 r = r)
    (hfit' : ∀ r ∈ c'.attrs.resolution, wrap32 r = r) :
    (∀ e, e ≠ Status.OK →
      ((afterChecks dchecks c' x v F C).1 = Outcome.returned e ↔
        (afterChecks dchecks c x v F C).1 = Outcome.returned e)) ∧
    ((dchecks = true →
        (0 ≤ wrap32 c.attrs.resolution.prod ∨ wrap32 c.attrs.resolution.prod = kUnknownDim) ∧
        (0 ≤ wrap32 c'.attrs.resolution.prod ∨
          wrap32 c'.attrs.resolution.prod = kUnknownDim)) →
      (afterChecks dchecks c' x v F C).1 = (afterChecks dchecks c x v F C).1) := by
  rw [afterChecks_fst_fits dchecks c x v F C hfit, afterChecks_fst_fits dchecks c' x v F C hfit',
    hg, hl]
  generalize readInt (Dim x 1) = d
  by_cases e1 : (c.attrs.gravity.length : Int) ≠ d
  · rw [if_pos e1, if_pos e1]
    exact ⟨fun _ _ => Iff.rfl, fun _ => rfl⟩
  rw [if_neg e1, if_neg e1]
  by_cases e2 : (c.attrs.resolution.length : Int) ≠ d
  · rw [if_pos e2, if_pos e2]
    exact ⟨fun _ _ => Iff.rfl, fun _ => rfl⟩
  rw [if_neg e2, if_neg e2]
  have hn : d.toNat = c.attrs.resolution.length := by
    have := not_not.1 e2
    omega
  rw [hn]
  have hsome := shapeLoop_isSome_congr c.attrs.resolution c'.attrs.resolution hl
    c.attrs.resolution.length 0 1
  rcases hs : shapeLoop c.attrs.resolution c.attrs.resolution.length 0 1 with _ | nc
  · rw [hs] at hsome
    rcases hs' : shapeLoop c'.attrs.resolution c.attrs.resolution.length 0 1 with _ | nc'
    · exact ⟨fun _ _ => Iff.rfl, fun _ => rfl⟩
    · rw [hs'] at hsome
      cases hsome
  · rw [hs] at hsome
    rcases hs' : shapeLoop c'.attrs.resolution c.attrs.resolution.length 0 1 with _ | nc'
    · rw [hs'] at hsome
      cases hsome
    · obtain ⟨_, hnc⟩ := shapeLoop_full _ _ hs
      rw [← hl] at hs'
      obtain ⟨_, hnc'⟩ := shapeLoop_full _ _ hs'
      simp only
      constructor
      · intro e he
        rcases DimensionOrConstant dchecks nc with _ | cells <;>
        rcases DimensionOrConstant dchecks nc' with _ | cells' <;>
        rcases DimensionOrConstant dchecks (wrap32 (d + 1)) with _ | ch <;>
        constructor <;> intro h <;>
        first
        | (injection h with h; exact absurd h.symm he)
        | cases h
      · intro hcond
        rw [DimensionOrConstant_of_ok dchecks nc (by rw [hnc]; exact fun h => (hcond h).1),
          DimensionOrConstant_of_ok dchecks nc' (by rw [hnc']; exact fun h => (hcond h).2)]

/-- Claim C5 fails as stated: the resolution `[0, -5, 100]` has entries `≤ 0`,
yet the shape function returns OK, with and without debug checks, and the
constructor succeeds.  What setup does look at: the resolution `[2^32, 3]` is
rejected by the shape function and by the constructor, on the read into a
`std::vector<int>`, where `[4, 3]` is accepted; and compiled with debug checks
the shape function aborts on the resolution `[-2, 3]`, whose product is
negative, where it returns OK on `[-2, -3]`. -/
theorem C5_nonpositive_resolution_is_accepted :
    ((∃ r ∈ ([0, -5, 100] : List Int), r ≤ 0) ∧
      (MpmShapeFn false (InferenceContext.init (dims [1, 3, 5]) (dims [1, 3, 5])
        (dims [1, 3, 3, 5]) (dims [1, 3, 3, 5])
        ⟨⟨1⟩, ⟨1⟩, ⟨1⟩, ⟨1⟩, ⟨1⟩, ⟨1⟩, [⟨0⟩, ⟨0⟩, ⟨0⟩], [0, -5, 100]⟩)).1
        = Outcome.returned Status.OK ∧
      (MpmShapeFn true (InferenceContext.init (dims [1, 3, 5]) (dims [1, 3, 5])
        (dims [1, 3, 3, 5]) (dims [1, 3, 3, 5])
        ⟨⟨1⟩, ⟨1⟩, ⟨1⟩, ⟨1⟩, ⟨1⟩, ⟨1⟩, [⟨0⟩, ⟨0⟩, ⟨0⟩], [0, -5, 100]⟩)).1
        = Outcome.returned Status.OK ∧
      (MPMOpGPU.construct ⟨⟨1⟩, ⟨1⟩, ⟨1⟩, ⟨1⟩, ⟨1⟩, ⟨1⟩, [⟨0⟩, ⟨0⟩, ⟨0⟩], [0, -5, 100]⟩).isOk
        = true) ∧
    ((MpmShapeFn false (InferenceContext.init (dims [1, 2, 5]) (dims [1, 2, 5])
        (dims [1, 2, 2, 5]) (dims [1, 2, 2, 5])
        ⟨⟨1⟩, ⟨1⟩, ⟨1⟩, ⟨1⟩, ⟨1⟩, ⟨1⟩, [⟨0⟩, ⟨0⟩], [4294967296, 3]⟩)).1
        = Outcome.returned (Status.InvalidArgument (Message.attrRange 4294967296)) ∧
      (MPMOpGPU.construct ⟨⟨1⟩, ⟨1⟩, ⟨1⟩, ⟨1⟩, ⟨1⟩, ⟨1⟩, [⟨0⟩, ⟨0⟩], [4294967296, 3]⟩).isOk
        = false ∧
      (MpmShapeFn false (InferenceContext.init (dims [1, 2, 5]) (dims [1, 2, 5])
        (dims [1, 2, 2, 5]) (dims [1, 2, 2, 5])
        ⟨⟨1⟩, ⟨1⟩, ⟨1⟩, ⟨1⟩, ⟨1⟩, ⟨1⟩, [⟨0⟩, ⟨0⟩], [4, 3]⟩)).1
        = Outcome.returned Status.OK ∧
      (MPMOpGPU.construct ⟨⟨1⟩, ⟨1⟩, ⟨1⟩, ⟨1⟩, ⟨1⟩, ⟨1⟩, [⟨0⟩, ⟨0⟩], [4, 3]⟩).isOk
        = true) ∧
    ((MpmShapeFn true (InferenceContext.init (dims [1, 2, 5]) (dims [1, 2, 5])
        (dims [1, 2, 2, 5]) (dims [1, 2, 2, 5])
        ⟨⟨1⟩, ⟨1⟩, ⟨1⟩, ⟨1⟩, ⟨1⟩, ⟨1⟩, [⟨0⟩, ⟨0⟩], [-2, 3]⟩)).1
        = Outcome.fatal ∧
      (MpmShapeFn true (InferenceContext.init (dims [1, 2, 5]) (dims [1, 2, 5])
        (dims [1, 2, 2, 5]) (dims [1, 2, 2, 5])
        ⟨⟨1⟩, ⟨1⟩, ⟨1⟩, ⟨1⟩, ⟨1⟩, ⟨1⟩, [⟨0⟩, ⟨0⟩], [-2, -3]⟩)).1
        = Outcome.returned Status.OK) := by
  decide

/-- Claim C5, amended: setup looks at the `resolution` attribute through its
length and through whether its entries are values of an `int`, never through
their sign.  For a resolution whose entries are values of an `int`, replacing
the list by any list of the same length whose entries are values of an `int`
(entries `≤ 0` included) changes neither whether the shape function returns an
error nor which error, and neither whether the constructor fails nor with
which error; the outcome of the shape function as a whole stays the same in a
build without debug checks, and in a build with them whenever the 32 bit
products of both lists are not negative or are `-1` (otherwise the `DCHECK` on
`num_cells` can abort the process for one list and not for the other). -/
theorem C5_setup_checks_only_length_and_int_range_of_resolution (dchecks : Bool)
    (c : InferenceContext) (res' : List Int)
    (h : res'.length = c.attrs.resolution.length)
    (hfit : ∀ r ∈ c.attrs.resolution, wrap32 r = r)
    (hfit' : ∀ r ∈ res', wrap32 r = r) :
    (∀ e, e ≠ Status.OK →
      ((MpmShapeFn dchecks ⟨c.inputs, c.outputs, c.attrs.withResolution res'⟩).1
          = Outcome.returned e ↔
        (MpmShapeFn dchecks c).1 = Outcome.returned e)) ∧
    ((dchecks = true →
        (0 ≤ wrap32 c.attrs.resolution.prod ∨ wrap32 c.attrs.resolution.prod = kUnknownDim) ∧
        (0 ≤ wrap32 res'.prod ∨ wrap32 res'.prod = kUnknownDim)) →
      (MpmShapeFn dchecks ⟨c.inputs, c.outputs, c.attrs.withResolution res'⟩).1
        = (MpmShapeFn dchecks c).1) ∧
    (∀ e, MPMOpGPU.construct (c.attrs.withResolution res') = Except.error e ↔
      MPMOpGPU.construct c.attrs = Except.error e) ∧
    (MPMOpGPU.construct (c.attrs.withResolution res')).isOk
      = (MPMOpGPU.construct c.attrs).isOk := by
  have key := MpmShapeFn_fst_rel
    (fun o' o => (∀ e, e ≠ Status.OK → (o' = Outcome.returned e ↔ o = Outcome.returned e)) ∧
      ((dchecks = true →
        (0 ≤ wrap32 c.attrs.resolution.prod ∨ wrap32 c.attrs.resolution.prod = kUnknownDim) ∧
        (0 ≤ wrap32 res'.prod ∨ wrap32 res'.prod = kUnknownDim)) → o' = o))
    (fun e => ⟨fun _ _ => Iff.rfl, fun _ => rfl⟩)
    dchecks c ⟨c.inputs, c.outputs, c.attrs.withResolution res'⟩ rfl
    (fun x v F C => afterChecks_fst_resolution dchecks c
      ⟨c.inputs, c.outputs, c.attrs.withResolution res'⟩ x v F C rfl h hfit hfit')
  refine ⟨key.1, key.2, ?_⟩
  have hc : MPMOpGPU.construct (c.attrs.withResolution res') =
      match MPMOpGPU.construct c.attrs with
      | Except.error e => Except.error e
      | Except.ok k => Except.ok ⟨k.dt_, k.dx_, k.m_p_, k.V_p_, k.E_, k.nu_, k.gravity_, res'⟩ := by
    rw [construct_eq, construct_eq]
    have hp : firstNonPositive (c.attrs.withResolution res') = firstNonPositive c.attrs := rfl
    have h1 : (c.attrs.withResolution res').dt = c.attrs.dt := rfl
    have h2 : (c.attrs.withResolution res').dx = c.attrs.dx := rfl
    have h3 : (c.attrs.withResolution res').resolution = res' := rfl
    rw [hp, h1, h2, h3, (find_outOfRange_eq_none _).2 hfit, (find_outOfRange_eq_none _).2 hfit']
    by_cases g1 : c.attrs.dt.gtZero = false
    · rw [if_pos g1, if_pos g1]
    rw [if_neg g1, if_neg g1]
    by_cases g2 : c.attrs.dx.gtZero = false
    · rw [if_pos g2, if_pos g2]
    rw [if_neg g2, if_neg g2]
    cases firstNonPositive c.attrs <;> rfl
  rw [hc]
  rcases MPMOpGPU.construct c.attrs with e | k
  · exact ⟨fun _ => Iff.rfl, rfl⟩
  · exact ⟨fun e => ⟨fun h => (by cases h), fun h => (by cases h)⟩, rfl⟩

/-- Claim C5, witness: the resolution `[4, 4]` replaced by `[0, -5]`. -/
theorem C5_witness :
    (([0, -5] : List Int).length = ([4, 4] : List Int).length ∧
      (∀ r ∈ ([4, 4] : List Int), wrap32 r = r) ∧ (∀ r ∈ ([0, -5] : List Int), wrap32 r = r)) ∧
    (MpmShapeFn true ⟨[dims [1, 2, 5], dims [1, 2, 5], dims [1, 2, 2, 5], dims [1, 2, 2, 5]],
        List.replicate 6 none,
        Attrs.withResolution ⟨⟨1⟩, ⟨1⟩, ⟨1⟩, ⟨1⟩, ⟨1⟩, ⟨1⟩, [⟨0⟩, ⟨0⟩], [4, 4]⟩ [0, -5]⟩).1
      = (MpmShapeFn true (InferenceContext.init (dims [1, 2, 5]) (dims [1, 2, 5])
          (dims [1, 2, 2, 5]) (dims [1, 2, 2, 5])
          ⟨⟨1⟩, ⟨1⟩, ⟨1⟩, ⟨1⟩, ⟨1⟩, ⟨1⟩, [⟨0⟩, ⟨0⟩], [4, 4]⟩)).1 ∧
    (MPMOpGPU.construct
        (Attrs.withResolution ⟨⟨1⟩, ⟨1⟩, ⟨1⟩, ⟨1⟩, ⟨1⟩, ⟨1⟩, [⟨0⟩, ⟨0⟩], [4, 4]⟩ [0, -5])).isOk
      = (MPMOpGPU.construct ⟨⟨1⟩, ⟨1⟩, ⟨1⟩, ⟨1⟩, ⟨1⟩, ⟨1⟩, [⟨0⟩, ⟨0⟩], [4, 4]⟩).isOk :=
  ⟨⟨rfl, by decide, by decide⟩,
    (C5_setup_checks_only_length_and_int_range_of_resolution true
      (InferenceContext.init (dims [1, 2, 5]) (dims [1, 2, 5]) (dims [1, 2, 2, 5])
        (dims [1, 2, 2, 5]) ⟨⟨1⟩, ⟨1⟩, ⟨1⟩, ⟨1⟩, ⟨1⟩, ⟨1⟩, [⟨0⟩, ⟨0⟩], [4, 4]⟩) [0, -5] rfl
      (by decide) (by decide)).2.1 (fun _ => by decide),
    (C5_setup_checks_only_length_and_int_range_of_resolution true
      (InferenceContext.init (dims [1, 2, 5]) (dims [1, 2, 5]) (dims [1, 2, 2, 5])
        (dims [1, 2, 2, 5]) ⟨⟨1⟩, ⟨1⟩, ⟨1⟩, ⟨1⟩, ⟨1⟩, ⟨1⟩, [⟨0⟩, ⟨0⟩], [4, 4]⟩) [0, -5] rfl
      (by decide) (by decide)).2.2.2⟩

/-- When lines 73-107 return OK, the read of `resolution` has succeeded, both
length checks have passed, the loop has produced `num_cells`, and all six
outputs are set. -/
theorem afterChecks_ok (dchecks : Bool) (c : InferenceContext) (x v F C : ShapeHandle)
    (h : (afterChecks dchecks c x v F C).1 = Outcome.returned Status.OK) :
    ∃ nc, (∀ r ∈ c.attrs.resolution, wrap32 r = r) ∧
      shapeLoop c.attrs.resolution (readInt (Dim x 1)).toNat 0 1 = some nc ∧
      (c.attrs.gravity.length : Int) = readInt (Dim x 1) ∧
      (c.attrs.resolution.length : Int) = readInt (Dim x 1) ∧
      (afterChecks dchecks c x v F C).2 =
        (((((c.set_output 0 x).set_output 1 v).set_output 2 F).set_output 3 C).set_output
          4 C).set_output 5 (dims [Dim x 0, nc, wrap32 (readInt (Dim x 1) + 1)]) := by
  rw [afterChecks_fst] at h
  rcases hg : GetAttrResolution c.attrs.resolution with e | res_
  · obtain ⟨w, _, _, _, he⟩ := GetAttrResolution_error _ _ hg
    rw [hg, he] at h
    cases h
  obtain ⟨hres, hfit⟩ := GetAttrResolution_ok _ _ hg
  subst hres
  rw [hg] at h
  simp only at h
  by_cases h1 : (c.attrs.gravity.length : Int) ≠ readInt (Dim x 1)
  · rw [if_pos h1] at h; cases h
  rw [if_neg h1] at h
  by_cases h2 : (c.attrs.resolution.length : Int) ≠ readInt (Dim x 1)
  · rw [if_pos h2] at h; cases h
  rw [if_neg h2] at h
  rcases hs : shapeLoop c.attrs.resolution (readInt (Dim x 1)).toNat 0 1 with _ | nc
  · rw [hs] at h
    cases h
  rw [hs] at h
  simp only at h
  rcases hc1 : DimensionOrConstant dchecks nc with _ | cells
  · rw [hc1] at h
    cases h
  rw [hc1] at h
  simp only at h
  rcases hc2 : DimensionOrConstant dchecks (wrap32 (readInt (Dim x 1) + 1)) with _ | channels
  · rw [hc2] at h
    cases h
  obtain ⟨e1, _⟩ := DimensionOrConstant_some _ _ _ hc1
  obtain ⟨e2, _⟩ := DimensionOrConstant_some _ _ _ hc2
  subst e1 e2
  refine ⟨cells, hfit, rfl, not_not.1 h1, not_not.1 h2, ?_⟩
  simp only [afterChecks, InferenceContext.set_output]
  rw [hg]
  simp only
  rw [if_neg h1, if_neg h2, hs]
  simp only
  rw [hc1]
  simp only
  rw [hc2]

theorem init_input_zero (x v F C : ShapeHandle) (a : Attrs) :
    (InferenceContext.init x v F C a).input 0 = x := rfl

theorem init_attrs (x v F C : ShapeHandle) (a : Attrs) :
    (InferenceContext.init x v F C a).attrs = a := rfl

theorem init_outputs_after (x v F C : ShapeHandle) (a : Attrs) (o0 o1 o2 o3 o4 o5 : ShapeHandle) :
    (((((((InferenceContext.init x v F C a).set_output 0 o0).set_output 1 o1).set_output
      2 o2).set_output 3 o3).set_output 4 o4).set_output 5 o5).outputs
      = [some o0, some o1, some o2, some o3, some o4, some o5] := rfl

/-- Claim C6 fails as stated: for the resolution `[65536, 65536]` the product
`2^32` does not fit the `int num_cells`; the shape function returns OK (with
and without debug checks) and sets `grid_out` to `(1, 0, 3)`, not to
`(1, 4294967296, 3)`. -/
theorem C6_num_cells_wraps_around :
    (MpmShapeFn false (InferenceContext.init (dims [1, 2, 5]) (dims [1, 2, 5]) (dims [1, 2, 2, 5])
      (dims [1, 2, 2, 5])
      ⟨⟨1⟩, ⟨1⟩, ⟨1⟩, ⟨1⟩, ⟨1⟩, ⟨1⟩, [⟨0⟩, ⟨0⟩], [65536, 65536]⟩)).1
      = Outcome.returned Status.OK ∧
    (MpmShapeFn false (InferenceContext.init (dims [1, 2, 5]) (dims [1, 2, 5]) (dims [1, 2, 2, 5])
      (dims [1, 2, 2, 5])
      ⟨⟨1⟩, ⟨1⟩, ⟨1⟩, ⟨1⟩, ⟨1⟩, ⟨1⟩, [⟨0⟩, ⟨0⟩], [65536, 65536]⟩)).2.outputs.getD 5 none
      = some (dims [1, 0, 3]) ∧
    (MpmShapeFn true (InferenceContext.init (dims [1, 2, 5]) (dims [1, 2, 5]) (dims [1, 2, 2, 5])
      (dims [1, 2, 2, 5])
      ⟨⟨1⟩, ⟨1⟩, ⟨1⟩, ⟨1⟩, ⟨1⟩, ⟨1⟩, [⟨0⟩, ⟨0⟩], [65536, 65536]⟩)).1
      = Outcome.returned Status.OK ∧
    (MpmShapeFn true (InferenceContext.init (dims [1, 2, 5]) (dims [1, 2, 5]) (dims [1, 2, 2, 5])
      (dims [1, 2, 2, 5])
      ⟨⟨1⟩, ⟨1⟩, ⟨1⟩, ⟨1⟩, ⟨1⟩, ⟨1⟩, [⟨0⟩, ⟨0⟩], [65536, 65536]⟩)).2.outputs.getD 5 none
      = some (dims [1, 0, 3]) ∧
    some (dims [1, 0, 3]) ≠ some (dims [1, List.prod [65536, 65536], 2 + 1]) := by
  decide

/-- Claim C6, amended: on an accepted input with `position` of shape
`(B, D, N)` and a resolution list of length `D`, the shape of
`grid_out` (output 5) is `(B, n, D + 1)` where `n` is the product of the
entries of `res` reduced to a 32 bit `int`; `n` is the product itself whenever
the product fits an `int`.  This holds with and without debug checks. -/
theorem C6_grid_out_shape (dchecks : Bool) (B D N : Int) (v F C : ShapeHandle) (a : Attrs)
    (h : (MpmShapeFn dchecks (InferenceContext.init (dims [B, D, N]) v F C a)).1
      = Outcome.returned Status.OK)
    (hlen : (a.resolution.length : Int) = D) :
    (MpmShapeFn dchecks (InferenceContext.init (dims [B, D, N]) v F C a)).2.outputs.getD 5 none
      = some (dims [B, wrap32 a.resolution.prod, D + 1]) ∧
    (-2147483648 ≤ a.resolution.prod → a.resolution.prod < 2147483648 →
      (MpmShapeFn dchecks (InferenceContext.init (dims [B, D, N]) v F C a)).2.outputs.getD 5 none
        = some (dims [B, a.resolution.prod, D + 1])) := by
  have key : (MpmShapeFn dchecks
      (InferenceContext.init (dims [B, D, N]) v F C a)).2.outputs.getD 5 none
      = some (dims [B, wrap32 a.resolution.prod, D + 1]) := by
    rcases MpmShapeFn_early dchecks (InferenceContext.init (dims [B, D, N]) v F C a) with
      ⟨m, hm⟩ | ⟨x, v', F', C', h0, _, _, _, _, he⟩
    · rw [hm] at h; cases h
    · rw [init_input_zero, WithRank_dims [B, D, N] 3 rfl] at h0
      injection h0 with h0
      subst h0
      rw [he] at h ⊢
      obtain ⟨nc, _, hs, _, hrl, h2⟩ := afterChecks_ok _ _ _ _ _ _ h
      rw [h2, init_outputs_after]
      rw [init_attrs] at hs hrl
      have hDim : Dim (dims [B, D, N]) 1 = D := rfl
      have hB : Dim (dims [B, D, N]) 0 = B := rfl
      rw [hDim] at hs hrl ⊢
      rw [hB]
      clear hDim hB
      have hw : readInt D = D := by rw [← hrl, hlen]
      rw [hw] at hs ⊢
      have hn : D.toNat = a.resolution.length := by omega
      rw [hn] at hs
      obtain ⟨h3, hnc⟩ := shapeLoop_full _ _ hs
      have hw1 : wrap32 (D + 1) = D + 1 := wrap32_of_range _ (by omega) (by omega)
      rw [hw1, hnc]
      rfl
  refine ⟨key, ?_⟩
  intro hlo hhi
  rw [key, wrap32_of_range _ hlo hhi]

/-- Claim C6, witness: `D = 2` with the resolution `[4, 5]`. -/
theorem C6_witness :
    ((([4, 5] : List Int).length : Int) = 2) ∧
    ((MpmShapeFn true (InferenceContext.init (dims [1, 2, 5]) (dims [1, 2, 5]) (dims [1, 2, 2, 5])
      (dims [1, 2, 2, 5])
      ⟨⟨1⟩, ⟨1⟩, ⟨1⟩, ⟨1⟩, ⟨1⟩, ⟨1⟩, [⟨0⟩, ⟨0⟩], [4, 5]⟩)).2.outputs.getD 5 none
      = some (dims [1, wrap32 (List.prod [4, 5]), 2 + 1])) :=
  ⟨by decide,
    (C6_grid_out_shape true 1 2 5 (dims [1, 2, 5]) (dims [1, 2, 2, 5]) (dims [1, 2, 2, 5])
      ⟨⟨1⟩, ⟨1⟩, ⟨1⟩, ⟨1⟩, ⟨1⟩, ⟨1⟩, [⟨0⟩, ⟨0⟩], [4, 5]⟩ (by decide) (by decide)).1⟩

theorem computeLoop_eq (res_ : List Int) (gravity_ : List Float32) :
    ∀ (n i : Nat) (nc : Int) (res : List Int) (gravity : List Float32),
    i + n ≤ res_.length → i + n ≤ gravity_.length →
    computeLoop res_ gravity_ n i nc res gravity =
      some (res ++ (res_.drop i).take n, mulCells nc ((res_.drop i).take n),
        gravity ++ (gravity_.drop i).take n) := by
  intro n
  induction n with
  | zero => intro i nc res gravity _ _; simp [computeLoop, mulCells]
  | succ n ih =>
    intro i nc res gravity h1 h2
    have hi : i < res_.length := by omega
    have hj : i < gravity_.length := by omega
    unfold computeLoop
    rw [List.getElem?_eq_getElem hi, List.getElem?_eq_getElem hj]
    simp only
    rw [ih (i + 1) _ _ _ (by omega) (by omega)]
    rw [List.drop_eq_getElem_cons hi, List.drop_eq_getElem_cons hj]
    simp only [mulCells, List.take_succ_cons, List.foldl_cons, List.append_assoc,
      List.singleton_append]

theorem computeLoop_full (res_ : List Int) (gravity_ : List Float32) (n : Nat)
    (h1 : n ≤ res_.length) (h2 : n ≤ gravity_.length) :
    computeLoop res_ gravity_ n 0 1 [] [] =
      some (res_.take n, wrap32 (res_.take n).prod, gravity_.take n) := by
  rw [computeLoop_eq res_ gravity_ n 0 1 [] [] (by omega) (by omega)]
  simp only [List.drop_zero, List.nil_append]
  rw [mulCells_eq _ _ (by decide), one_mul]

theorem DCHECK_EQ_same (dchecks : Bool) (a : Int) : DCHECK_EQ dchecks a (some a) = none := by
  cases dchecks <;> simp [DCHECK_EQ]

theorem wrap32_lt (x : Int) : wrap32 x < 2147483648 := by
  unfold wrap32; omega

theorem recompute_three (a b c : Int) (ha : 0 ≤ a) (hb : 0 ≤ b) (hc : 0 ≤ c)
    (ha' : a < 2147483648) (hb' : b < 2147483648)
    (h : a * b * c < 9223372036854775808) :
    recompute_num_elements [a, b, c] 1 = some (a * b * c) := by
  have hab0 : 0 ≤ a * b := mul_nonneg ha hb
  have hab : a * b < 9223372036854775808 := by
    have h1 : a * b ≤ 2147483647 * 2147483647 :=
      Int.mul_le_mul (by omega) (by omega) hb (by norm_num)
    have h2 : (2147483647 : Int) * 2147483647 < 9223372036854775808 := by norm_num
    exact lt_of_le_of_lt h1 h2
  simp only [recompute_num_elements, one_mul]
  rw [if_pos ⟨ha, by omega⟩, if_pos ⟨hab0, hab⟩, if_pos ⟨mul_nonneg hab0 hc, h⟩]

/-- The two calls of `set_dim` at lines 245 and 246 succeed when `num_cells`
is not negative and the element counts of both shapes fit an `int64`. -/
theorem set_dim_grid (B D N nc : Int) (hB0 : 0 ≤ B) (hB : B < 2147483648) (hD0 : 0 ≤ D)
    (hN0 : 0 ≤ N) (hnc0 : 0 ≤ nc) (hnc : nc < 2147483648)
    (h1 : B * nc * N < 9223372036854775808)
    (h2 : B * nc * (D + 1) < 9223372036854775808) :
    set_dim [B, D, N] 1 nc = some [B, nc, N] ∧
    set_dim [B, nc, N] 2 (D + 1) = some [B, nc, D + 1] := by
  constructor
  · unfold set_dim
    rw [if_pos ⟨by simp, hnc0⟩]
    simp only [List.set_cons_succ, List.set_cons_zero]
    rw [recompute_three B nc N hB0 hnc0 hN0 hB hnc h1]
  · unfold set_dim
    rw [if_pos ⟨by simp, by omega⟩]
    simp only [List.set_cons_succ, List.set_cons_zero]
    rw [recompute_three B nc (D + 1) hB0 hnc0 (by omega) hB hnc h2]

/-- On a valid input `Compute` allocates the six outputs and calls the
launcher once. -/
theorem Compute_valid (dchecks : Bool) (k : MPMOpGPU) (context : OpKernelContext)
    (B D N : Int) (px pv pF pC q0 q1 q2 q3 q4 q5 : Nat)
    (hx : context.input 0 = ⟨[B, D, N], px⟩) (hv : context.input 1 = ⟨[B, D, N], pv⟩)
    (hF : context.input 2 = ⟨[B, D, D, N], pF⟩) (hC : context.input 3 = ⟨[B, D, D, N], pC⟩)
    (hB0 : 0 ≤ B) (hB : B < 2147483648) (hD0 : 0 ≤ D) (hD : D < 2147483647)
    (hN0 : 0 ≤ N) (hN : N < 2147483648)
    (hres : D.toNat ≤ k.res_.length) (hgrav : D.toNat ≤ k.gravity_.length)
    (hcells : 0 ≤ wrap32 (k.res_.take D.toNat).prod)
    (hcount : B * wrap32 (k.res_.take D.toNat).prod * N < 9223372036854775808)
    (hcount' : B * wrap32 (k.res_.take D.toNat).prod * (D + 1) < 9223372036854775808)
    (ha0 : context.allocate_output 0 [B, D, N] = Except.ok q0)
    (ha1 : context.allocate_output 1 [B, D, N] = Except.ok q1)
    (ha2 : context.allocate_output 2 [B, D, D, N] = Except.ok q2)
    (ha3 : context.allocate_output 3 [B, D, D, N] = Except.ok q3)
    (ha4 : context.allocate_output 4 [B, D, D, N] = Except.ok q4)
    (ha5 : context.allocate_output 5 [B, wrap32 (k.res_.take D.toNat).prod, D + 1]
      = Except.ok q5) :
    MPMOpGPU.Compute dchecks k context =
      (Outcome.returned Status.OK,
        ⟨[(0, [B, D, N]), (1, [B, D, N]), (2, [B, D, D, N]), (3, [B, D, D, N]),
          (4, [B, D, D, N]), (5, [B, wrap32 (k.res_.take D.toNat).prod, D + 1])],
         [MPMKernelLauncher D (k.res_.take D.toNat) N k.dx_ k.dt_ k.E_ k.nu_ k.m_p_ k.V_p_
           (k.gravity_.take D.toNat) px pv pF pC q0 q1 q2 q3 q4 q5]⟩) := by
  have wB : wrap32 B = B := wrap32_of_range _ (by omega) (by omega)
  have wD : wrap32 D = D := wrap32_of_range _ (by omega) (by omega)
  have wN : wrap32 N = N := wrap32_of_range _ (by omega) (by omega)
  have wD1 : wrap32 (D + 1) = D + 1 := wrap32_of_range _ (by omega) (by omega)
  have hneg : ¬ D < 0 := by omega
  obtain ⟨hs1, hs2⟩ := set_dim_grid B D N (wrap32 (k.res_.take D.toNat).prod) hB0 hB hD0 hN0
    hcells (wrap32_lt _) hcount hcount'
  simp only [MPMOpGPU.Compute, hx, hv, hF, hC, List.length_cons, List.length_nil,
    dim_size, List.getElem?_cons_zero, List.getElem?_cons_succ, wB, wD, wN, wD1,
    DCHECK_EQ_same, firstFailure, computeLoop_full _ _ _ hres hgrav, hneg, if_false,
    ha0, ha1, ha2, ha3, ha4, hs1, hs2, Nat.zero_add, Nat.reduceAdd, ha5, List.cons_append,
    List.nil_append, Nat.cast_ofNat]

theorem firstFailure_enabled (l : List (Int × Int)) :
    firstFailure (l.map (fun p => DCHECK_EQ true p.1 (some p.2))) =
      if ∀ p ∈ l, p.1 = p.2 then none else some Outcome.fatal := by
  induction l with
  | nil => simp [firstFailure]
  | cons p l ih =>
    have hd : DCHECK_EQ true p.1 (some p.2) = if p.1 = p.2 then none else some Outcome.fatal :=
      rfl
    by_cases hp : p.1 = p.2
    · simp only [List.map_cons, hp, DCHECK_EQ_same, firstFailure, ih, List.mem_cons,
        forall_eq_or_imp, true_and]
    · simp only [List.map_cons, hd, hp, if_false, firstFailure, List.mem_cons,
        forall_eq_or_imp, false_and]

theorem length_eq_three' {α : Type} (l : List α) (h : l.length = 3) :
    ∃ a b c, l = [a, b, c] := by
  match l, h with
  | [a, b, c], _ => exact ⟨a, b, c, rfl⟩

theorem length_eq_four' {α : Type} (l : List α) (h : l.length = 4) :
    ∃ a b c d, l = [a, b, c, d] := by
  match l, h with
  | [a, b, c, d], _ => exact ⟨a, b, c, d, rfl⟩

/-- Claim C7, the code at the failing input.  `position` has the shape
`(1, 2, 5)` and `velocity` the shape `(1, 2, 7)`, which violates the
compatibility rule.  Compiled without debug checks, `Compute` returns OK after
allocating all six outputs and calling the launcher once: the only shape
checks are the `DCHECK_EQ`s of lines 189-231, which are then compiled out.
Compiled with debug checks, `Compute` on the same input stops at the
`DCHECK_EQ` of line 229 with no allocation and no launch, which is what the
assertions say `Compute` is meant to do. -/
theorem C7_compute_runs_on_mismatched_shapes_without_dchecks :
    shapesCompatible [1, 2, 5] [1, 2, 7] [1, 2, 2, 5] [1, 2, 2, 5] = false ∧
    (MPMOpGPU.Compute false ⟨⟨1⟩, ⟨1⟩, ⟨1⟩, ⟨1⟩, ⟨1⟩, ⟨1⟩, [⟨0⟩, ⟨0⟩], [4, 5]⟩
      (exampleContext [1, 2, 5] [1, 2, 7] [1, 2, 2, 5] [1, 2, 2, 5])).1
      = Outcome.returned Status.OK ∧
    (MPMOpGPU.Compute false ⟨⟨1⟩, ⟨1⟩, ⟨1⟩, ⟨1⟩, ⟨1⟩, ⟨1⟩, [⟨0⟩, ⟨0⟩], [4, 5]⟩
      (exampleContext [1, 2, 5] [1, 2, 7] [1, 2, 2, 5] [1, 2, 2, 5])).2.allocated.length = 6 ∧
    (MPMOpGPU.Compute false ⟨⟨1⟩, ⟨1⟩, ⟨1⟩, ⟨1⟩, ⟨1⟩, ⟨1⟩, [⟨0⟩, ⟨0⟩], [4, 5]⟩
      (exampleContext [1, 2, 5] [1, 2, 7] [1, 2, 2, 5] [1, 2, 2, 5])).2.launches.length = 1 ∧
    (MPMOpGPU.Compute true ⟨⟨1⟩, ⟨1⟩, ⟨1⟩, ⟨1⟩, ⟨1⟩, ⟨1⟩, [⟨0⟩, ⟨0⟩], [4, 5]⟩
      (exampleContext [1, 2, 5] [1, 2, 7] [1, 2, 2, 5] [1, 2, 2, 5])).1 = Outcome.fatal ∧
    (MPMOpGPU.Compute true ⟨⟨1⟩, ⟨1⟩, ⟨1⟩, ⟨1⟩, ⟨1⟩, ⟨1⟩, [⟨0⟩, ⟨0⟩], [4, 5]⟩
      (exampleContext [1, 2, 5] [1, 2, 7] [1, 2, 2, 5] [1, 2, 2, 5])).2 = ⟨[], []⟩ := by
  decide

/-- Compiled with debug checks, on inputs whose four shapes violate the
compatibility rule and whose `position` dimensions fit an `int`, `Compute`
allocates no output and never calls the launcher: a `DCHECK_EQ` stops it, unless
the copy loop, which runs before the axis checks, has read outside the
attribute lists. -/
theorem Compute_with_dchecks_stops_on_mismatched_shapes (k : MPMOpGPU)
    (context : OpKernelContext)
    (hbad : shapesCompatible (context.input 0).shape (context.input 1).shape
      (context.input 2).shape (context.input 3).shape = false)
    (hrange : ∀ d ∈ (context.input 0).shape, 0 ≤ d ∧ d < 2147483648) :
    (MPMOpGPU.Compute true k context).2 = ⟨[], []⟩ ∧
    ((MPMOpGPU.Compute true k context).1 = Outcome.fatal ∨
     (MPMOpGPU.Compute true k context).1 = Outcome.undefined) := by
  obtain ⟨⟨x, px⟩, hx⟩ : ∃ t, context.input 0 = t := ⟨_, rfl⟩
  obtain ⟨⟨v, pv⟩, hv⟩ : ∃ t, context.input 1 = t := ⟨_, rfl⟩
  obtain ⟨⟨F, pF⟩, hF⟩ : ∃ t, context.input 2 = t := ⟨_, rfl⟩
  obtain ⟨⟨C, pC⟩, hC⟩ : ∃ t, context.input 3 = t := ⟨_, rfl⟩
  rw [hx, hv, hF, hC] at hbad
  rw [hx] at hrange
  simp only at hbad hrange
  have hranks : firstFailure
      [DCHECK_EQ true x.length (some 3), DCHECK_EQ true v.length (some 3),
       DCHECK_EQ true F.length (some 4), DCHECK_EQ true C.length (some 4)] =
      if ∀ p ∈ [((x.length : Int), (3 : Int)), ((v.length : Int), 3), ((F.length : Int), 4),
        ((C.length : Int), 4)], p.1 = p.2 then none else some Outcome.fatal :=
    firstFailure_enabled [((x.length : Int), (3 : Int)), ((v.length : Int), 3),
      ((F.length : Int), 4), ((C.length : Int), 4)]
  simp only [MPMOpGPU.Compute, hx, hv, hF, hC, hranks]
  by_cases hr : ∀ p ∈ [((x.length : Int), (3 : Int)), ((v.length : Int), 3),
      ((F.length : Int), 4), ((C.length : Int), 4)], p.1 = p.2
  swap
  · rw [if_neg hr]
    exact ⟨rfl, Or.inl rfl⟩
  rw [if_pos hr]
  simp only [List.mem_cons, List.mem_singleton, forall_eq_or_imp, forall_eq,
    List.not_mem_nil, false_imp_iff, implies_true, and_true] at hr
  obtain ⟨B, D, N, rfl⟩ := length_eq_three' x (by omega)
  obtain ⟨B1, D1, N1, rfl⟩ := length_eq_three' v (by omega)
  obtain ⟨B2, D2, E2, N2, rfl⟩ := length_eq_four' F (by omega)
  obtain ⟨B3, D3, E3, N3, rfl⟩ := length_eq_four' C (by omega)
  have rB := hrange B (by simp)
  have rD := hrange D (by simp)
  have rN := hrange N (by simp)
  have wB : wrap32 B = B := wrap32_of_range _ (by omega) (by omega)
  have wD : wrap32 D = D := wrap32_of_range _ (by omega) (by omega)
  have wN : wrap32 N = N := wrap32_of_range _ (by omega) (by omega)
  have hneg : ¬ D < 0 := by omega
  simp only [dim_size, List.getElem?_cons_zero, List.getElem?_cons_succ, wB, wD, wN, hneg,
    if_false]
  rcases computeLoop k.res_ k.gravity_ D.toNat 0 1 [] [] with _ | ⟨res, nc, g⟩
  · exact ⟨rfl, Or.inr rfl⟩
  simp only
  have hdims : firstFailure
      [DCHECK_EQ true B (some B1), DCHECK_EQ true B (some B2), DCHECK_EQ true B (some B3),
       DCHECK_EQ true D (some D1), DCHECK_EQ true D (some D2), DCHECK_EQ true D (some E2),
       DCHECK_EQ true D (some D3), DCHECK_EQ true D (some E3),
       DCHECK_EQ true N (some N1), DCHECK_EQ true N (some N2), DCHECK_EQ true N (some N3)] =
      if ∀ p ∈ [(B, B1), (B, B2), (B, B3), (D, D1), (D, D2), (D, E2), (D, D3), (D, E3),
        (N, N1), (N, N2), (N, N3)], p.1 = p.2 then none else some Outcome.fatal :=
    firstFailure_enabled [(B, B1), (B, B2), (B, B3), (D, D1), (D, D2), (D, E2), (D, D3),
      (D, E3), (N, N1), (N, N2), (N, N3)]
  rw [hdims]
  have hne : ¬ ∀ p ∈ [(B, B1), (B, B2), (B, B3), (D, D1), (D, D2), (D, E2), (D, D3), (D, E3),
        (N, N1), (N, N2), (N, N3)], p.1 = p.2 := by
    intro hall
    simp only [List.mem_cons, List.mem_singleton, forall_eq_or_imp, forall_eq,
      List.not_mem_nil, false_imp_iff, implies_true, and_true] at hall
    obtain ⟨e1, e2, e3, e4, e5, e6, e7, e8, e9, e10, e11⟩ := hall
    subst e1 e2 e3 e4 e5 e6 e7 e8 e9 e10 e11
    simp [shapesCompatible] at hbad
  rw [if_neg hne]
  exact ⟨rfl, Or.inl rfl⟩

/-- Claim C8 fails as stated, in five ways.  With spatial dimension 3 and
the resolution `[1300, 1300, 1300]` the constructor succeeds and the shape
function, compiled without debug checks, returns OK; but the product `1300^3`
does not fit the `int num_cells`, which becomes negative, and `Compute` (with
or without debug checks) aborts in `set_dim` after five allocations and never
calls the launcher.  With `2^32 + 5` particles `Compute`, compiled without
debug checks, calls the launcher with `num_particles = 5`: the particle count
is passed as an `int`.  And with `2^16` batches of `2^17` particles and the
resolution `[32768, 32768]`, `Compute` aborts in the first `set_dim`, which
turns the shape of `position` into `(2^16, 2^30, 2^17)`, a shape of `2^63`
elements, and never calls the launcher.  With a batch size of `2^31`
`Compute`, compiled with debug checks, stops at the `DCHECK_EQ` of line 217:
the `int batch_size` differs from the batch size of `velocity`.  And when the
allocation of an output fails, `Compute` returns the error of the allocation
without calling the launcher. -/
theorem C8_negative_num_cells_aborts_before_the_launch :
    (MPMOpGPU.construct ⟨⟨1⟩, ⟨1⟩, ⟨1⟩, ⟨1⟩, ⟨1⟩, ⟨1⟩, [⟨0⟩, ⟨0⟩, ⟨0⟩], [1300, 1300, 1300]⟩
        = Except.ok ⟨⟨1⟩, ⟨1⟩, ⟨1⟩, ⟨1⟩, ⟨1⟩, ⟨1⟩, [⟨0⟩, ⟨0⟩, ⟨0⟩], [1300, 1300, 1300]⟩ ∧
      (MpmShapeFn false (InferenceContext.init (dims [1, 3, 5]) (dims [1, 3, 5])
        (dims [1, 3, 3, 5]) (dims [1, 3, 3, 5])
        ⟨⟨1⟩, ⟨1⟩, ⟨1⟩, ⟨1⟩, ⟨1⟩, ⟨1⟩, [⟨0⟩, ⟨0⟩, ⟨0⟩], [1300, 1300, 1300]⟩)).1
        = Outcome.returned Status.OK ∧
      shapesCompatible [1, 3, 5] [1, 3, 5] [1, 3, 3, 5] [1, 3, 3, 5] = true ∧
      (MPMOpGPU.Compute false ⟨⟨1⟩, ⟨1⟩, ⟨1⟩, ⟨1⟩, ⟨1⟩, ⟨1⟩, [⟨0⟩, ⟨0⟩, ⟨0⟩], [1300, 1300, 1300]⟩
        (exampleContext [1, 3, 5] [1, 3, 5] [1, 3, 3, 5] [1, 3, 3, 5])).1 = Outcome.fatal ∧
      (MPMOpGPU.Compute false ⟨⟨1⟩, ⟨1⟩, ⟨1⟩, ⟨1⟩, ⟨1⟩, ⟨1⟩, [⟨0⟩, ⟨0⟩, ⟨0⟩], [1300, 1300, 1300]⟩
        (exampleContext [1, 3, 5] [1, 3, 5] [1, 3, 3, 5] [1, 3, 3, 5])).2.allocated.length = 5 ∧
      (MPMOpGPU.Compute false ⟨⟨1⟩, ⟨1⟩, ⟨1⟩, ⟨1⟩, ⟨1⟩, ⟨1⟩, [⟨0⟩, ⟨0⟩, ⟨0⟩], [1300, 1300, 1300]⟩
        (exampleContext [1, 3, 5] [1, 3, 5] [1, 3, 3, 5] [1, 3, 3, 5])).2.launches = [] ∧
      (MPMOpGPU.Compute true ⟨⟨1⟩, ⟨1⟩, ⟨1⟩, ⟨1⟩, ⟨1⟩, ⟨1⟩, [⟨0⟩, ⟨0⟩, ⟨0⟩], [1300, 1300, 1300]⟩
        (exampleContext [1, 3, 5] [1, 3, 5] [1, 3, 3, 5] [1, 3, 3, 5])).1 = Outcome.fatal ∧
      (MPMOpGPU.Compute true ⟨⟨1⟩, ⟨1⟩, ⟨1⟩, ⟨1⟩, ⟨1⟩, ⟨1⟩, [⟨0⟩, ⟨0⟩, ⟨0⟩], [1300, 1300, 1300]⟩
        (exampleContext [1, 3, 5] [1, 3, 5] [1, 3, 3, 5] [1, 3, 3, 5])).2.launches = [] ∧
      wrap32 (List.prod [1300, 1300, 1300]) < 0) ∧
    (shapesCompatible [1, 2, 4294967301] [1, 2, 4294967301] [1, 2, 2, 4294967301]
        [1, 2, 2, 4294967301] = true ∧
      (MPMOpGPU.Compute false ⟨⟨1⟩, ⟨1⟩, ⟨1⟩, ⟨1⟩, ⟨1⟩, ⟨1⟩, [⟨0⟩, ⟨0⟩], [4, 5]⟩
        (exampleContext [1, 2, 4294967301] [1, 2, 4294967301] [1, 2, 2, 4294967301]
          [1, 2, 2, 4294967301])).2.launches.map (fun l => l.num_particles) = [5]) ∧
    (shapesCompatible [65536, 2, 131072] [65536, 2, 131072] [65536, 2, 2, 131072]
        [65536, 2, 2, 131072] = true ∧
      (MpmShapeFn true (InferenceContext.init (dims [65536, 2, 131072])
        (dims [65536, 2, 131072]) (dims [65536, 2, 2, 131072]) (dims [65536, 2, 2, 131072])
        ⟨⟨1⟩, ⟨1⟩, ⟨1⟩, ⟨1⟩, ⟨1⟩, ⟨1⟩, [⟨0⟩, ⟨0⟩], [32768, 32768]⟩)).1
        = Outcome.returned Status.OK ∧
      (MPMOpGPU.Compute true ⟨⟨1⟩, ⟨1⟩, ⟨1⟩, ⟨1⟩, ⟨1⟩, ⟨1⟩, [⟨0⟩, ⟨0⟩], [32768, 32768]⟩
        (exampleContext [65536, 2, 131072] [65536, 2, 131072] [65536, 2, 2, 131072]
          [65536, 2, 2, 131072])).1 = Outcome.fatal ∧
      (MPMOpGPU.Compute true ⟨⟨1⟩, ⟨1⟩, ⟨1⟩, ⟨1⟩, ⟨1⟩, ⟨1⟩, [⟨0⟩, ⟨0⟩], [32768, 32768]⟩
        (exampleContext [65536, 2, 131072] [65536, 2, 131072] [65536, 2, 2, 131072]
          [65536, 2, 2, 131072])).2.launches = []) ∧
    (shapesCompatible [2147483648, 2, 5] [2147483648, 2, 5] [2147483648, 2, 2, 5]
        [2147483648, 2, 2, 5] = true ∧
      (MPMOpGPU.Compute true ⟨⟨1⟩, ⟨1⟩, ⟨1⟩, ⟨1⟩, ⟨1⟩, ⟨1⟩, [⟨0⟩, ⟨0⟩], [4, 5]⟩
        (exampleContext [2147483648, 2, 5] [2147483648, 2, 5] [2147483648, 2, 2, 5]
          [2147483648, 2, 2, 5])).1 = Outcome.fatal ∧
      (MPMOpGPU.Compute true ⟨⟨1⟩, ⟨1⟩, ⟨1⟩, ⟨1⟩, ⟨1⟩, ⟨1⟩, [⟨0⟩, ⟨0⟩], [4, 5]⟩
        (exampleContext [2147483648, 2, 5] [2147483648, 2, 5] [2147483648, 2, 2, 5]
          [2147483648, 2, 2, 5])).2.launches = []) ∧
    ((MPMOpGPU.Compute false ⟨⟨1⟩, ⟨1⟩, ⟨1⟩, ⟨1⟩, ⟨1⟩, ⟨1⟩, [⟨0⟩, ⟨0⟩], [4, 5]⟩
        ⟨(exampleContext [1, 2, 5] [1, 2, 5] [1, 2, 2, 5] [1, 2, 2, 5]).input,
          fun i _ => Except.error (Status.ResourceExhausted (Message.allocation i))⟩).1
        = Outcome.returned (Status.ResourceExhausted (Message.allocation 0)) ∧
      (MPMOpGPU.Compute false ⟨⟨1⟩, ⟨1⟩, ⟨1⟩, ⟨1⟩, ⟨1⟩, ⟨1⟩, [⟨0⟩, ⟨0⟩], [4, 5]⟩
        ⟨(exampleContext [1, 2, 5] [1, 2, 5] [1, 2, 2, 5] [1, 2, 2, 5]).input,
          fun i _ => Except.error (Status.ResourceExhausted (Message.allocation i))⟩).2.launches
        = []) :=
  ⟨⟨rfl, by decide, by decide, by decide, by decide, by decide, by decide, by decide,
    by decide⟩, ⟨by decide, by decide⟩, ⟨by decide, by decide, by decide, by decide⟩,
    ⟨by decide, by decide, by decide⟩, ⟨by decide, by decide⟩⟩

/-- Claim C8, amended: for a kernel constructed from the attributes, on a
valid input (shapes `(B, D, N)`, `(B, D, N)`, `(B, D, D, N)`, `(B, D, D, N)`,
at least `D` entries in `resolution` and `gravity`) whose `B`, `D + 1` and `N`
fit an `int`, whose `num_cells`, the product of the first `D` resolution
entries computed in a 32 bit `int`, is not negative, whose grid shapes
`(B, num_cells, N)` and `(B, num_cells, D + 1)` have fewer than `2^63`
elements, and whose six allocations succeed, `Compute` returns OK and calls the launcher exactly once, with
`dim = D`, `res` the first `D` resolution entries, `num_particles = N`, then
`dx`, `dt`, `E`, `nu`, `m_p`, `V_p`, `gravity` from the attributes, then the
buffers of inputs 0 to 3 as `inx`, `inv`, `inF`, `inC`, then the buffers of
outputs 0 to 5 as `outx`, `outv`, `outF`, `outC`, `outP`, `outgrid`.  This
holds with and without debug checks. -/
theorem C8_compute_calls_launcher_once_in_declared_order (dchecks : Bool) (a : Attrs)
    (k : MPMOpGPU) (context : OpKernelContext) (B D N : Int)
    (px pv pF pC q0 q1 q2 q3 q4 q5 : Nat)
    (hk : MPMOpGPU.construct a = Except.ok k)
    (hx : context.input 0 = ⟨[B, D, N], px⟩) (hv : context.input 1 = ⟨[B, D, N], pv⟩)
    (hF : context.input 2 = ⟨[B, D, D, N], pF⟩) (hC : context.input 3 = ⟨[B, D, D, N], pC⟩)
    (hB0 : 0 ≤ B) (hB : B < 2147483648) (hD0 : 0 ≤ D) (hD : D < 2147483647)
    (hN0 : 0 ≤ N) (hN : N < 2147483648)
    (hres : D.toNat ≤ a.resolution.length) (hgrav : D.toNat ≤ a.gravity.length)
    (hcells : 0 ≤ wrap32 (a.resolution.take D.toNat).prod)
    (hcount : B * wrap32 (a.resolution.take D.toNat).prod * N < 9223372036854775808)
    (hcount' : B * wrap32 (a.resolution.take D.toNat).prod * (D + 1) < 9223372036854775808)
    (ha0 : context.allocate_output 0 [B, D, N] = Except.ok q0)
    (ha1 : context.allocate_output 1 [B, D, N] = Except.ok q1)
    (ha2 : context.allocate_output 2 [B, D, D, N] = Except.ok q2)
    (ha3 : context.allocate_output 3 [B, D, D, N] = Except.ok q3)
    (ha4 : context.allocate_output 4 [B, D, D, N] = Except.ok q4)
    (ha5 : context.allocate_output 5 [B, wrap32 (a.resolution.take D.toNat).prod, D + 1]
      = Except.ok q5) :
    (MPMOpGPU.Compute dchecks k context).1 = Outcome.returned Status.OK ∧
    (MPMOpGPU.Compute dchecks k context).2.launches =
      [{ dim := D, res := a.resolution.take D.toNat, num_particles := N,
         dx := a.dx, dt := a.dt, E := a.E, nu := a.nu, m_p := a.m_p, V_p := a.V_p,
         gravity := a.gravity.take D.toNat,
         inx := px, inv := pv, inF := pF, inC := pC,
         outx := q0, outv := q1, outF := q2, outC := q3, outP := q4, outgrid := q5 }] := by
  obtain ⟨hkf, _, _⟩ := construct_ok_fields a k hk
  subst hkf
  rw [Compute_valid dchecks ⟨a.dt, a.dx, a.m_p, a.V_p, a.E, a.nu, a.gravity, a.resolution⟩
    context B D N px pv pF pC q0 q1 q2 q3 q4 q5 hx hv hF hC hB0 hB
    hD0 hD hN0 hN hres hgrav hcells hcount hcount' ha0 ha1 ha2 ha3 ha4 ha5]
  exact ⟨rfl, rfl⟩

/-- Claim C8, witness: `B = 1`, `D = 2`, `N = 5` with the resolution `[4, 5]`. -/
theorem C8_witness :
    (MPMOpGPU.Compute true ⟨⟨1⟩, ⟨2⟩, ⟨3⟩, ⟨4⟩, ⟨5⟩, ⟨6⟩, [⟨7⟩, ⟨8⟩], [4, 5]⟩
      (exampleContext [1, 2, 5] [1, 2, 5] [1, 2, 2, 5] [1, 2, 2, 5])).2.launches =
      [{ dim := 2, res := [4, 5], num_particles := 5,
         dx := ⟨2⟩, dt := ⟨1⟩, E := ⟨5⟩, nu := ⟨6⟩, m_p := ⟨3⟩, V_p := ⟨4⟩,
         gravity := [⟨7⟩, ⟨8⟩],
         inx := 100, inv := 101, inF := 102, inC := 103,
         outx := 200, outv := 201, outF := 202, outC := 203, outP := 204, outgrid := 205 }] :=
  (C8_compute_calls_launcher_once_in_declared_order true
    ⟨⟨1⟩, ⟨2⟩, ⟨5⟩, ⟨6⟩, ⟨3⟩, ⟨4⟩, [⟨7⟩, ⟨8⟩], [4, 5]⟩
    ⟨⟨1⟩, ⟨2⟩, ⟨3⟩, ⟨4⟩, ⟨5⟩, ⟨6⟩, [⟨7⟩, ⟨8⟩], [4, 5]⟩
    (exampleContext [1, 2, 5] [1, 2, 5] [1, 2, 2, 5] [1, 2, 2, 5]) 1 2 5
    100 101 102 103 200 201 202 203 204 205 rfl rfl rfl rfl rfl
    (by decide) (by decide) (by decide) (by decide) (by decide) (by decide)
    (by decide) (by decide) (by decide) (by decide) (by decide) rfl rfl rfl rfl rfl rfl).2

theorem WithRank_dims_ok (ds : List Int) (r : Nat) (s : ShapeHandle)
    (h : WithRank (dims ds) r = Except.ok s) : ds.length = r ∧ s = dims ds := by
  unfold WithRank at h
  simp only at h
  split_ifs at h with hl
  injection h with h
  exact ⟨hl, h.symm⟩

/-- Claim C9 fails as stated, in four ways.  For the resolution
`[2048, 2048, 2048]` the shape `Compute` allocates for `grid_out` is `(1, 0, 4)`,
not `(1, 2^33, 4)`.  For the resolution `[-2, 3]` the shape function (compiled
without debug checks) infers `(1, -6, 3)` for `grid_out`, while `Compute` aborts
in `set_dim` after five allocations and never allocates `grid_out`.  And for a
batch size of `2^31`, accepted by the shape function, `Compute`, compiled with
debug checks, allocates nothing: the `int batch_size` differs from the batch
size of `velocity`.  And for `2^16` batches of `2^17` particles with the
resolution `[32768, 32768]` the shape function infers `(2^16, 2^30, 3)` for
`grid_out`, while `Compute` aborts in the first `set_dim`, which turns the
shape of `position` into `(2^16, 2^30, 2^17)`, a shape of `2^63` elements, and
never allocates `grid_out`. -/
theorem C9_grid_out_is_not_the_product_and_may_not_be_allocated :
    ((MpmShapeFn false (InferenceContext.init (dims [1, 3, 5]) (dims [1, 3, 5]) (dims [1, 3, 3, 5])
        (dims [1, 3, 3, 5])
        ⟨⟨1⟩, ⟨1⟩, ⟨1⟩, ⟨1⟩, ⟨1⟩, ⟨1⟩, [⟨0⟩, ⟨0⟩, ⟨0⟩], [2048, 2048, 2048]⟩)).1
        = Outcome.returned Status.OK ∧
      (MPMOpGPU.Compute false ⟨⟨1⟩, ⟨1⟩, ⟨1⟩, ⟨1⟩, ⟨1⟩, ⟨1⟩, [⟨0⟩, ⟨0⟩, ⟨0⟩], [2048, 2048, 2048]⟩
        (exampleContext [1, 3, 5] [1, 3, 5] [1, 3, 3, 5] [1, 3, 3, 5])).2.allocated.getD 5 (0, [])
        = (5, [1, 0, 4]) ∧
      ([1, 0, 4] : List Int) ≠ [1, List.prod [2048, 2048, 2048], 3 + 1]) ∧
    ((MpmShapeFn false (InferenceContext.init (dims [1, 2, 5]) (dims [1, 2, 5]) (dims [1, 2, 2, 5])
        (dims [1, 2, 2, 5])
        ⟨⟨1⟩, ⟨1⟩, ⟨1⟩, ⟨1⟩, ⟨1⟩, ⟨1⟩, [⟨0⟩, ⟨0⟩], [-2, 3]⟩)).2.outputs.getD 5 none
        = some (dims [1, -6, 3]) ∧
      (MPMOpGPU.Compute false ⟨⟨1⟩, ⟨1⟩, ⟨1⟩, ⟨1⟩, ⟨1⟩, ⟨1⟩, [⟨0⟩, ⟨0⟩], [-2, 3]⟩
        (exampleContext [1, 2, 5] [1, 2, 5] [1, 2, 2, 5] [1, 2, 2, 5])).1 = Outcome.fatal ∧
      (MPMOpGPU.Compute false ⟨⟨1⟩, ⟨1⟩, ⟨1⟩, ⟨1⟩, ⟨1⟩, ⟨1⟩, [⟨0⟩, ⟨0⟩], [-2, 3]⟩
        (exampleContext [1, 2, 5] [1, 2, 5] [1, 2, 2, 5] [1, 2, 2, 5])).2.allocated.length
        = 5) ∧
    ((MpmShapeFn true (InferenceContext.init (dims [2147483648, 2, 5]) (dims [2147483648, 2, 5])
        (dims [2147483648, 2, 2, 5]) (dims [2147483648, 2, 2, 5])
        ⟨⟨1⟩, ⟨1⟩, ⟨1⟩, ⟨1⟩, ⟨1⟩, ⟨1⟩, [⟨0⟩, ⟨0⟩], [4, 5]⟩)).1
        = Outcome.returned Status.OK ∧
      (MPMOpGPU.Compute true ⟨⟨1⟩, ⟨1⟩, ⟨1⟩, ⟨1⟩, ⟨1⟩, ⟨1⟩, [⟨0⟩, ⟨0⟩], [4, 5]⟩
        (exampleContext [2147483648, 2, 5] [2147483648, 2, 5] [2147483648, 2, 2, 5]
          [2147483648, 2, 2, 5])).2.allocated = []) ∧
    ((MpmShapeFn false (InferenceContext.init (dims [65536, 2, 131072])
        (dims [65536, 2, 131072]) (dims [65536, 2, 2, 131072]) (dims [65536, 2, 2, 131072])
        ⟨⟨1⟩, ⟨1⟩, ⟨1⟩, ⟨1⟩, ⟨1⟩, ⟨1⟩, [⟨0⟩, ⟨0⟩], [32768, 32768]⟩)).2.outputs.getD 5 none
        = some (dims [65536, 1073741824, 3]) ∧
      (MPMOpGPU.Compute false ⟨⟨1⟩, ⟨1⟩, ⟨1⟩, ⟨1⟩, ⟨1⟩, ⟨1⟩, [⟨0⟩, ⟨0⟩], [32768, 32768]⟩
        (exampleContext [65536, 2, 131072] [65536, 2, 131072] [65536, 2, 2, 131072]
          [65536, 2, 2, 131072])).1 = Outcome.fatal ∧
      (MPMOpGPU.Compute false ⟨⟨1⟩, ⟨1⟩, ⟨1⟩, ⟨1⟩, ⟨1⟩, ⟨1⟩, [⟨0⟩, ⟨0⟩], [32768, 32768]⟩
        (exampleContext [65536, 2, 131072] [65536, 2, 131072] [65536, 2, 2, 131072]
          [65536, 2, 2, 131072])).2.allocated.length = 5 ∧
      (65536 : Int) * 1073741824 * 131072 = 9223372036854775808) := by
  decide

/-- Claim C9, amended: for a kernel built from the attributes, fully known
input shapes accepted by the shape function whose `position` dimensions fit an
`int`, a resolution list whose 32 bit product `n` is not negative, grid shapes
`(B, n, N)` and `(B, n, D + 1)` of fewer than `2^63` elements, and an
allocator that succeeds, the six shapes `Compute` allocates, for the outputs 0
to 5 in this order, are the six shapes the shape function infers: the shapes
of inputs 0 to 3, the shape of input 3 again, and `(B, n, D + 1)` with `n` the
product of the resolution entries reduced to a 32 bit `int`.  This holds
whether or not `Compute` (`dchecks`) and the shape function (`fnChecks`) are
compiled with debug checks. -/
theorem C9_static_and_runtime_output_shapes_agree (dchecks fnChecks : Bool) (a : Attrs)
    (k : MPMOpGPU) (context : OpKernelContext) (x v F C : List Int)
    (hk : MPMOpGPU.construct a = Except.ok k)
    (hacc : (MpmShapeFn fnChecks
      (InferenceContext.init (dims x) (dims v) (dims F) (dims C) a)).1
      = Outcome.returned Status.OK)
    (hknown : ∀ d ∈ x ++ v ++ F ++ C, 0 ≤ d)
    (hx : (context.input 0).shape = x) (hv : (context.input 1).shape = v)
    (hF : (context.input 2).shape = F) (hC : (context.input 3).shape = C)
    (hfit : ∀ d ∈ x, d < 2147483648)
    (hcells : 0 ≤ wrap32 a.resolution.prod)
    (hcount : x.getD 0 0 * wrap32 a.resolution.prod * x.getD 2 0 < 9223372036854775808)
    (hcount' : x.getD 0 0 * wrap32 a.resolution.prod * (x.getD 1 0 + 1)
      < 9223372036854775808)
    (halloc : ∀ i s, ∃ q, context.allocate_output i s = Except.ok q) :
    (MPMOpGPU.Compute dchecks k context).2.allocated.map (fun p => some (dims p.2))
      = (MpmShapeFn fnChecks
          (InferenceContext.init (dims x) (dims v) (dims F) (dims C) a)).2.outputs ∧
    (MPMOpGPU.Compute dchecks k context).2.allocated.map Prod.fst = [0, 1, 2, 3, 4, 5] ∧
    (MpmShapeFn fnChecks
        (InferenceContext.init (dims x) (dims v) (dims F) (dims C) a)).2.outputs
      = [some (dims x), some (dims v), some (dims F), some (dims C), some (dims C),
         some (dims [x.getD 0 0, wrap32 a.resolution.prod, x.getD 1 0 + 1])] := by
  have hkf := (construct_ok_fields a k hk).1
  rcases MpmShapeFn_early fnChecks
      (InferenceContext.init (dims x) (dims v) (dims F) (dims C) a) with
    ⟨m, hm⟩ | ⟨x', v', F', C', h0, h1, h2, h3, hp, he⟩
  · rw [hm] at hacc; cases hacc
  obtain ⟨lx, rfl⟩ := WithRank_dims_ok x 3 x' h0
  obtain ⟨lv, rfl⟩ := WithRank_dims_ok v 3 v' h1
  obtain ⟨lF, rfl⟩ := WithRank_dims_ok F 4 F' h2
  obtain ⟨lC, rfl⟩ := WithRank_dims_ok C 4 C' h3
  obtain ⟨B, D, N, rfl⟩ := length_eq_three' x lx
  simp only [List.getD_cons_zero, List.getD_cons_succ] at hcount hcount'
  obtain ⟨B1, D1, N1, rfl⟩ := length_eq_three' v lv
  obtain ⟨B2, D2, E2, N2, rfl⟩ := length_eq_four' F lF
  obtain ⟨B3, D3, E3, N3, rfl⟩ := length_eq_four' C lC
  have kn : ∀ d ∈ [B, D, N] ++ [B1, D1, N1] ++ [B2, D2, E2, N2] ++ [B3, D3, E3, N3],
      d ≠ kUnknownDim := by
    intro d hd
    have := hknown d hd
    unfold kUnknownDim
    omega
  simp only [mergesPass, mergePairs, List.all_cons, List.all_nil, Bool.and_true,
    Bool.and_eq_true, Dim, List.getD_cons_succ, List.getD_cons_zero] at hp
  obtain ⟨m1, m2, m3, m4, m5, m6, m7, m8, m9, m10, m11⟩ := hp
  have e1 : B = B1 := agree_eq (agree_of_isOk _ _ m1) (kn _ (by simp)) (kn _ (by simp))
  have e2 : B = B2 := agree_eq (agree_of_isOk _ _ m2) (kn _ (by simp)) (kn _ (by simp))
  have e3 : B = B3 := agree_eq (agree_of_isOk _ _ m3) (kn _ (by simp)) (kn _ (by simp))
  have e4 : D = D1 := agree_eq (agree_of_isOk _ _ m4) (kn _ (by simp)) (kn _ (by simp))
  have e5 : D = D2 := agree_eq (agree_of_isOk _ _ m5) (kn _ (by simp)) (kn _ (by simp))
  have e6 : D = E2 := agree_eq (agree_of_isOk _ _ m6) (kn _ (by simp)) (kn _ (by simp))
  have e7 : D = D3 := agree_eq (agree_of_isOk _ _ m7) (kn _ (by simp)) (kn _ (by simp))
  have e8 : D = E3 := agree_eq (agree_of_isOk _ _ m8) (kn _ (by simp)) (kn _ (by simp))
  have e9 : N = N1 := agree_eq (agree_of_isOk _ _ m9) (kn _ (by simp)) (kn _ (by simp))
  have e10 : N = N2 := agree_eq (agree_of_isOk _ _ m10) (kn _ (by simp)) (kn _ (by simp))
  have e11 : N = N3 := agree_eq (agree_of_isOk _ _ m11) (kn _ (by simp)) (kn _ (by simp))
  subst e1 e2 e3 e4 e5 e6 e7 e8 e9 e10 e11
  rw [he] at hacc ⊢
  obtain ⟨nc, _, hs, hg, hrl, h2'⟩ := afterChecks_ok _ _ _ _ _ _ hacc
  rw [init_attrs] at hs hg hrl
  have hDim : Dim (dims [B, D, N]) 1 = D := rfl
  have hBd : Dim (dims [B, D, N]) 0 = B := rfl
  rw [hDim] at hs hg hrl h2'
  rw [hBd] at h2'
  clear hDim hBd
  have rB := hknown B (by simp)
  have rD := hknown D (by simp)
  have rN := hknown N (by simp)
  have fB := hfit B (by simp)
  have fD := hfit D (by simp)
  have fN := hfit N (by simp)
  have hw : readInt D = D := wrap32_of_range _ (by omega) (by omega)
  rw [hw] at hs hg hrl h2'
  have hn : D.toNat = a.resolution.length := by omega
  rw [hn] at hs
  obtain ⟨l3, hnc⟩ := shapeLoop_full _ _ hs
  have hw1 : wrap32 (D + 1) = D + 1 := wrap32_of_range _ (by omega) (by omega)
  rw [hw1, hnc] at h2'
  have hgl : D.toNat ≤ a.gravity.length := by omega
  have hres_ : k.res_ = a.resolution := by rw [hkf]
  have hgrav_ : k.gravity_ = a.gravity := by rw [hkf]
  have htake : k.res_.take D.toNat = a.resolution := by
    rw [hres_, hn, List.take_length]
  obtain ⟨⟨sx, px⟩, hix⟩ : ∃ t, context.input 0 = t := ⟨_, rfl⟩
  obtain ⟨⟨sv, pv⟩, hiv⟩ : ∃ t, context.input 1 = t := ⟨_, rfl⟩
  obtain ⟨⟨sF, pF⟩, hiF⟩ : ∃ t, context.input 2 = t := ⟨_, rfl⟩
  obtain ⟨⟨sC, pC⟩, hiC⟩ : ∃ t, context.input 3 = t := ⟨_, rfl⟩
  rw [hix] at hx; rw [hiv] at hv; rw [hiF] at hF; rw [hiC] at hC
  simp only at hx hv hF hC
  subst hx hv hF hC
  obtain ⟨q0, ha0⟩ := halloc 0 [B, D, N]
  obtain ⟨q1, ha1⟩ := halloc 1 [B, D, N]
  obtain ⟨q2, ha2⟩ := halloc 2 [B, D, D, N]
  obtain ⟨q3, ha3⟩ := halloc 3 [B, D, D, N]
  obtain ⟨q4, ha4⟩ := halloc 4 [B, D, D, N]
  obtain ⟨q5, ha5⟩ := halloc 5 [B, wrap32 (k.res_.take D.toNat).prod, D + 1]
  rw [Compute_valid dchecks k context B D N px pv pF pC q0 q1 q2 q3 q4 q5 hix hiv hiF hiC rB fB
    rD (by omega) rN fN (by rw [hres_]; omega) (by rw [hgrav_]; exact hgl)
    (by rw [htake]; exact hcells) (by rw [htake]; exact hcount)
    (by rw [htake]; exact hcount') ha0 ha1 ha2 ha3 ha4 ha5]
  rw [h2', init_outputs_after, htake]
  exact ⟨rfl, rfl, rfl⟩

/-- Claim C9, witness: `B = 1`, `D = 2`, `N = 5` with the resolution `[4, 5]`. -/
theorem C9_witness :
    ((MPMOpGPU.construct ⟨⟨1⟩, ⟨1⟩, ⟨1⟩, ⟨1⟩, ⟨1⟩, ⟨1⟩, [⟨0⟩, ⟨0⟩], [4, 5]⟩
        = Except.ok ⟨⟨1⟩, ⟨1⟩, ⟨1⟩, ⟨1⟩, ⟨1⟩, ⟨1⟩, [⟨0⟩, ⟨0⟩], [4, 5]⟩) ∧
      (0 : Int) ≤ wrap32 (List.prod [4, 5])) ∧
    (MPMOpGPU.Compute true ⟨⟨1⟩, ⟨1⟩, ⟨1⟩, ⟨1⟩, ⟨1⟩, ⟨1⟩, [⟨0⟩, ⟨0⟩], [4, 5]⟩
        (exampleContext [1, 2, 5] [1, 2, 5] [1, 2, 2, 5] [1, 2, 2, 5])).2.allocated.map
        (fun p => some (dims p.2))
      = (MpmShapeFn true (InferenceContext.init (dims [1, 2, 5]) (dims [1, 2, 5])
          (dims [1, 2, 2, 5]) (dims [1, 2, 2, 5])
          ⟨⟨1⟩, ⟨1⟩, ⟨1⟩, ⟨1⟩, ⟨1⟩, ⟨1⟩, [⟨0⟩, ⟨0⟩], [4, 5]⟩)).2.outputs :=
  ⟨⟨rfl, by decide⟩,
    (C9_static_and_runtime_output_shapes_agree true true
      ⟨⟨1⟩, ⟨1⟩, ⟨1⟩, ⟨1⟩, ⟨1⟩, ⟨1⟩, [⟨0⟩, ⟨0⟩], [4, 5]⟩
      ⟨⟨1⟩, ⟨1⟩, ⟨1⟩, ⟨1⟩, ⟨1⟩, ⟨1⟩, [⟨0⟩, ⟨0⟩], [4, 5]⟩
      (exampleContext [1, 2, 5] [1, 2, 5] [1, 2, 2, 5] [1, 2, 2, 5])
      [1, 2, 5] [1, 2, 5] [1, 2, 2, 5] [1, 2, 2, 5] rfl (by decide) (by decide)
      rfl rfl rfl rfl (by decide) (by decide) (by decide) (by decide)
      (fun i _ => ⟨200 + i, rfl⟩)).1⟩

theorem afterDchecks_ne_undefined (k : MPMOpGPU) (context : OpKernelContext) (dim : Int)
    (res : List Int) (num_cells : Int) (gravity : List Float32) (particles : Int) :
    (afterDchecks k context dim res num_cells gravity particles).1 ≠ Outcome.undefined := by
  simp only [afterDchecks]
  repeat' split
  all_goals (intro h; cases h)

/-- With a position tensor of rank 3 whose spatial axis fits an `int`, and a
copy loop that stays in bounds, `Compute` performs no out-of-bounds access. -/
theorem Compute_ne_undefined (dchecks : Bool) (k : MPMOpGPU) (context : OpKernelContext)
    (B D N : Int) (hx : (context.input 0).shape = [B, D, N])
    (hD0 : 0 ≤ D) (hD : D < 2147483648)
    (hloop : (computeLoop k.res_ k.gravity_ D.toNat 0 1 [] []).isSome = true) :
    (MPMOpGPU.Compute dchecks k context).1 ≠ Outcome.undefined := by
  have wD : wrap32 D = D := wrap32_of_range _ (by omega) (by omega)
  have hneg : ¬ D < 0 := by omega
  obtain ⟨⟨res, nc, g⟩, hl⟩ := Option.isSome_iff_exists.1 hloop
  have tail := afterDchecks_ne_undefined k context D res nc g (wrap32 N)
  simp only [afterDchecks, hx] at tail
  cases dchecks with
  | false =>
    simp only [MPMOpGPU.Compute, hx, DCHECK_EQ, firstFailure, dim_size,
      List.getElem?_cons_zero, List.getElem?_cons_succ, wD, hneg, if_false, hl,
      Bool.false_eq_true]
    exact tail
  | true =>
    have hranks := firstFailure_enabled [(((context.input 0).shape.length : Int), (3 : Int)),
      (((context.input 1).shape.length : Int), 3), (((context.input 2).shape.length : Int), 4),
      (((context.input 3).shape.length : Int), 4)]
    simp only [List.map_cons, List.map_nil] at hranks
    simp only [MPMOpGPU.Compute, hranks]
    by_cases hr : ∀ p ∈ [(((context.input 0).shape.length : Int), (3 : Int)),
      (((context.input 1).shape.length : Int), 3), (((context.input 2).shape.length : Int), 4),
      (((context.input 3).shape.length : Int), 4)], p.1 = p.2
    swap
    · rw [if_neg hr]
      intro h; cases h
    rw [if_pos hr]
    simp only [List.mem_cons, List.mem_singleton, forall_eq_or_imp, forall_eq,
      List.not_mem_nil, false_imp_iff, implies_true, and_true] at hr
    obtain ⟨B1, D1, N1, hv⟩ := length_eq_three' (context.input 1).shape (by omega)
    obtain ⟨B2, D2, E2, N2, hF⟩ := length_eq_four' (context.input 2).shape (by omega)
    obtain ⟨B3, D3, E3, N3, hC⟩ := length_eq_four' (context.input 3).shape (by omega)
    have hdims := firstFailure_enabled [(wrap32 B, B1), (wrap32 B, B2), (wrap32 B, B3),
      (D, D1), (D, D2), (D, E2), (D, D3), (D, E3),
      (wrap32 N, N1), (wrap32 N, N2), (wrap32 N, N3)]
    simp only [List.map_cons, List.map_nil] at hdims
    simp only [hx, hv, hF, hC, dim_size, List.getElem?_cons_zero, List.getElem?_cons_succ, wD,
      hneg, if_false, hl, hdims]
    by_cases hd : ∀ p ∈ [(wrap32 B, B1), (wrap32 B, B2), (wrap32 B, B3),
      (D, D1), (D, D2), (D, E2), (D, D3), (D, E3),
      (wrap32 N, N1), (wrap32 N, N2), (wrap32 N, N3)], p.1 = p.2
    · rw [if_pos hd]
      simp only [hv, hF, hC] at tail
      exact tail
    · rw [if_neg hd]
      intro h; cases h

/-- Claim C10: for a kernel built from attributes that the shape function
accepted together with a `position` of spatial dimension `D`, when `Compute`
runs on a `position` tensor of rank 3 with the same `D`, every index `i` below
the loop bound `dim = (int) D` is inside `res_` and `gravity_`, so the copy
loop of lines 204-208 completes; for `D` from 0 to below `2^31` the bound is
`D` itself and `Compute` performs no out-of-bounds access at all.  This holds
whether or not `Compute` (`dchecks`) and the shape function (`fnChecks`) are
compiled with debug checks. -/
theorem C10_attribute_reads_stay_in_bounds (dchecks fnChecks : Bool) (a : Attrs)
    (k : MPMOpGPU) (context : OpKernelContext) (B D N B' N' : Int) (v F C : ShapeHandle)
    (hk : MPMOpGPU.construct a = Except.ok k)
    (hacc : (MpmShapeFn fnChecks (InferenceContext.init (dims [B, D, N]) v F C a)).1
      = Outcome.returned Status.OK)
    (hx : (context.input 0).shape = [B', D, N']) :
    (∀ i : Nat, (i : Int) < wrap32 D → i < k.res_.length ∧ i < k.gravity_.length) ∧
    (computeLoop k.res_ k.gravity_ (wrap32 D).toNat 0 1 [] []).isSome = true ∧
    (0 ≤ D → D < 2147483648 →
      (∀ i : Nat, (i : Int) < D → i < k.res_.length ∧ i < k.gravity_.length) ∧
      (MPMOpGPU.Compute dchecks k context).1 ≠ Outcome.undefined) := by
  have hkf := (construct_ok_fields a k hk).1
  have hres_ : k.res_ = a.resolution := by rw [hkf]
  have hgrav_ : k.gravity_ = a.gravity := by rw [hkf]
  have hlen : (a.gravity.length : Int) = wrap32 D ∧
      (a.resolution.length : Int) = wrap32 D := by
    rcases MpmShapeFn_early fnChecks (InferenceContext.init (dims [B, D, N]) v F C a) with
      ⟨m, hm⟩ | ⟨x, v', F', C', h0, _, _, _, _, he⟩
    · rw [hm] at hacc; cases hacc
    · rw [init_input_zero, WithRank_dims [B, D, N] 3 rfl] at h0
      injection h0 with h0
      subst h0
      rw [he] at hacc
      obtain ⟨nc, _, _, hg, hr, _⟩ := afterChecks_ok _ _ _ _ _ _ hacc
      exact ⟨hg, hr⟩
  clear hacc hk hkf
  obtain ⟨hg, hr⟩ := hlen
  have hbound : ∀ i : Nat, (i : Int) < wrap32 D → i < k.res_.length ∧ i < k.gravity_.length := by
    intro i hi
    rw [hres_, hgrav_]
    omega
  have hloop : (computeLoop k.res_ k.gravity_ (wrap32 D).toNat 0 1 [] []).isSome = true := by
    rw [computeLoop_full k.res_ k.gravity_ (wrap32 D).toNat (by rw [hres_]; omega)
      (by rw [hgrav_]; omega)]
    rfl
  refine ⟨hbound, hloop, ?_⟩
  intro hD0 hD
  have wD : wrap32 D = D := wrap32_of_range _ (by omega) (by omega)
  rw [wD] at hbound hloop
  exact ⟨hbound, Compute_ne_undefined dchecks k context B' D N' hx hD0 hD hloop⟩

/-- Claim C10, witness: `D = 2` with two entries in `resolution` and `gravity`. -/
theorem C10_witness :
    ((MPMOpGPU.construct ⟨⟨1⟩, ⟨1⟩, ⟨1⟩, ⟨1⟩, ⟨1⟩, ⟨1⟩, [⟨0⟩, ⟨0⟩], [4, 5]⟩
        = Except.ok ⟨⟨1⟩, ⟨1⟩, ⟨1⟩, ⟨1⟩, ⟨1⟩, ⟨1⟩, [⟨0⟩, ⟨0⟩], [4, 5]⟩) ∧
      (MpmShapeFn false (InferenceContext.init (dims [1, 2, 5]) (dims [1, 2, 5])
        (dims [1, 2, 2, 5]) (dims [1, 2, 2, 5])
        ⟨⟨1⟩, ⟨1⟩, ⟨1⟩, ⟨1⟩, ⟨1⟩, ⟨1⟩, [⟨0⟩, ⟨0⟩], [4, 5]⟩)).1
        = Outcome.returned Status.OK) ∧
    (computeLoop [4, 5] [⟨0⟩, ⟨0⟩] (wrap32 2).toNat 0 1 [] []).isSome = true :=
  ⟨⟨rfl, by decide⟩,
    (C10_attribute_reads_stay_in_bounds false false
      ⟨⟨1⟩, ⟨1⟩, ⟨1⟩, ⟨1⟩, ⟨1⟩, ⟨1⟩, [⟨0⟩, ⟨0⟩], [4, 5]⟩
      ⟨⟨1⟩, ⟨1⟩, ⟨1⟩, ⟨1⟩, ⟨1⟩, ⟨1⟩, [⟨0⟩, ⟨0⟩], [4, 5]⟩
      (exampleContext [7, 2, 9] [1, 2, 5] [1, 2, 2, 5] [1, 2, 2, 5]) 1 2 5 7 9
      (dims [1, 2, 5]) (dims [1, 2, 2, 5]) (dims [1, 2, 2, 5]) rfl (by decide) rfl).2.1⟩

end ChainQueen
